import Mathlib

/-!
Verification development for the retail orchestration core of this repository.

The definitions below are a shallow embedding of `src/agents/utilities.py` and
`src/agents/retail_orchestrator_agent.py`.  Python dicts whose keys may be
absent are modelled as structures with `Option` fields (`none` = key missing or
value `None`); Python truthiness of strings is modelled by comparison with
`""`; mutable dicts are threaded functionally.  The opaque external calls
(the orchestrator agent, the product and insurance specialist agents, the
`json` standard library) are parameters of the embedding: theorems quantify
over them, so every proved statement covers the real implementations.

Source encoding note: `src/agents/utilities.py` is stored double-encoded
(mojibake).  The non-ASCII literals the Python interpreter actually sees are
therefore the mojibake character sequences, e.g. the euro sign in the budget
regex is the three-character sequence `â‚¬` (U+00E2 U+201A U+00AC), not `€`.
The embedding reproduces those literals faithfully.
-/

namespace RetailOrch

/-! ## Generic string helpers (Python `in`, `strip`, `lower`, `title`, ...) -/

/-- `needle` occurs as a contiguous sublist of `hay`. -/
def listContains : List Char → List Char → Bool
  | hay, needle =>
    match hay with
    | [] => needle.isPrefixOf []
    | c :: cs => needle.isPrefixOf (c :: cs) || listContains cs needle

/-- Python `needle in hay` for strings. -/
def strContains (hay needle : String) : Bool :=
  listContains hay.data needle.data

/-- Python `str.lower()` (ASCII case folding; written at the character level
so that it reduces definitionally, unlike `String.toLower`). -/
def pyLower (s : String) : String :=
  String.mk (s.data.map Char.toLower)

/-- Python `str.strip()` (whitespace strip; written at the character level so
that it reduces definitionally, unlike `String.trim`). -/
def pyStrip (s : String) : String :=
  String.mk (((s.data.dropWhile Char.isWhitespace).reverse.dropWhile Char.isWhitespace).reverse)

/-- The characters before the first occurrence of `pat`; the whole input when
`pat` does not occur.  This is Python `s.split(pat)[0]`. -/
def takeUntilSub (pat : List Char) : List Char → List Char
  | [] => []
  | c :: cs => if pat.isPrefixOf (c :: cs) then [] else c :: takeUntilSub pat cs

/-- Word character for the `\b` and `\w` regex classes: `[A-Za-z0-9_]`.
Python's `re` is unicode-aware, but every pattern in the sources only ever
meets ASCII in the relevant places. -/
def isWordChar (c : Char) : Bool :=
  c.isAlphanum || c = '_'

/-- `\b` holds before the first matched character (which is a word character
in every pattern of the sources) iff the previous character is absent or not
a word character. -/
def boundaryBefore (prev : Option Char) : Bool :=
  match prev with
  | none => true
  | some c => ! isWordChar c

/-- `\b` holds after a match ending in character `last` followed by `rest`. -/
def boundaryAfter (last : Char) (rest : List Char) : Bool :=
  match rest with
  | [] => isWordChar last
  | c :: _ => isWordChar last != isWordChar c

/-- Helper for `re.sub(r"\s+", " ", text)`: collapse each whitespace run to a
single space. -/
def collapseWsAux : Bool → List Char → List Char
  | _, [] => []
  | prevWs, c :: cs =>
    if c.isWhitespace then
      if prevWs then collapseWsAux true cs else ' ' :: collapseWsAux true cs
    else c :: collapseWsAux false cs

/-- `re.sub(r"\s+", " ", text).strip()` (line 502 of the orchestrator). -/
def collapseWs (s : String) : String :=
  pyStrip (String.mk (collapseWsAux false s.data))

/-- Python `str.strip(chars)`: drop the given characters from both ends. -/
def stripChars (cset : List Char) (s : List Char) : List Char :=
  ((s.dropWhile (cset.contains ·)).reverse.dropWhile (cset.contains ·)).reverse

/-- Python `str.title()`: a letter is upper-cased when it does not follow a
letter, lower-cased otherwise (ASCII suffices for the inputs at hand). -/
def pyTitleAux : Bool → List Char → List Char
  | _, [] => []
  | prevAlpha, c :: cs =>
    if c.isAlpha then
      (if prevAlpha then c.toLower else c.toUpper) :: pyTitleAux true cs
    else c :: pyTitleAux false cs

def pyTitle (s : String) : String :=
  String.mk (pyTitleAux false s.data)

def pyUpper (s : String) : String :=
  String.mk (s.data.map Char.toUpper)

/-- Case-insensitive prefix test (ASCII case folding, matching the
`re.IGNORECASE` uses in the sources). -/
def ciIsPrefixOf (pat cs : List Char) : Bool :=
  (pat.map Char.toLower).isPrefixOf (cs.map Char.toLower)

/-- Split a character list at every character satisfying `p` (the separators
are dropped), as `re.split` does. -/
def splitOnPred (p : Char → Bool) : List Char → List (List Char)
  | [] => [[]]
  | c :: cs =>
    let rest := splitOnPred p cs
    if p c then [] :: rest
    else
      match rest with
      | [] => [[c]]
      | r :: rs => (c :: r) :: rs

/-- Leftmost-match search: run the positional matcher `f` (which receives the
previous character, for `\b`) at every start position, left to right. -/
def scanPos {α : Type} (f : Option Char → List Char → Option α) :
    Option Char → List Char → Option α
  | prev, [] => f prev []
  | prev, c :: cs =>
    match f prev (c :: cs) with
    | some v => some v
    | none => scanPos f (some c) cs

/-- Greedy shrink helper for a trailing `\b`: `revPre` is the reversed
greedily-matched tail; drop characters from its end (mirroring the regex
engine backtracking the final quantifier) until the word boundary holds,
keeping at least `low` characters. -/
def shrinkForBoundary (low : Nat) : List Char → List Char → Option (List Char)
  | [], _ => none
  | c :: rp, rest =>
    if (c :: rp).length < low then none
    else if boundaryAfter c rest then some (c :: rp).reverse
    else shrinkForBoundary low rp (c :: rest)

/-! ## utilities.py : map_state_to_phase -/

structure StateD where
  product_status : Option String := none
  insurance_status : Option String := none
  overall_status : Option String := none
  routing : Option String := none
  inventory_checked : Bool := false
  iteration_count : Nat := 0
deriving Repr, DecidableEq, Inhabited

/-- `map_state_to_phase` (utilities.py lines 153-166). -/
def map_state_to_phase (state : StateD) : Nat :=
  let overall_status := state.overall_status.getD "intake"
  if overall_status = "intake" then 1
  else if overall_status = "inventory_check" then 2
  else if overall_status = "product_negotiation" then 3
  else if overall_status = "insurance_phase" then 4
  else if overall_status = "ready_to_checkout" then 5
  else if overall_status = "stopped" then 5
  else 1

/-! ## utilities.py : strip_retail_metadata -/

/-- Within `cs`, find the earliest `'\n'` that is followed by whitespace and
then the (case-insensitive) literal `lit`; return the remainder after the
literal.  This is the lazy `.*?\n\s*LIT` step of the metadata block pattern
(utilities.py lines 98-101), with `re.DOTALL` making `.` cross lines. -/
def findSkipTo (lit : List Char) : List Char → Option (List Char)
  | [] => none
  | c :: cs =>
    if c = '\n' then
      let r := cs.dropWhile Char.isWhitespace
      if ciIsPrefixOf lit r then some (r.drop lit.length)
      else findSkipTo lit cs
    else findSkipTo lit cs

/-- Match the metadata block pattern at the current position, returning the
rest of the input after the match.  The leading `\n?\s*` is whitespace; the
`---\s*\n\s*STATE:` step requires the whitespace after `---` to contain a
newline; the trailing `(?:\n\s*---\s*)?` can never fire because the greedy
`\s*` before it has already consumed any newline, so the lazy `.*?` stops
immediately (this mirrors the Python engine's behaviour: the closing `---`
line survives and is removed by the later line-level substitutions). -/
def matchMetadataBlockAt (cs : List Char) : Option (List Char) :=
  let r0 := cs.dropWhile Char.isWhitespace
  if ciIsPrefixOf "---".data r0 then
    let r1 := (r0.drop 3)
    let w := r1.takeWhile Char.isWhitespace
    let r2 := r1.dropWhile Char.isWhitespace
    if w.contains '\n' && ciIsPrefixOf "STATE:".data r2 then
      match findSkipTo "ROUTING:".data (r2.drop 6) with
      | none => none
      | some r3 =>
        match findSkipTo "INVENTORY_CHECKED:".data r3 with
        | none => none
        | some r4 =>
          match findSkipTo "ITERATION_COUNT:".data r4 with
          | none => none
          | some r5 => some (r5.dropWhile Char.isWhitespace)
    else none
  else none

/-- `metadata_block_pattern.sub("\n", cleaned)`: leftmost non-overlapping
replacement of each block by a newline (fuel = input length). -/
def removeMetadataBlocks : Nat → List Char → List Char
  | 0, cs => cs
  | _ + 1, [] => []
  | fuel + 1, c :: cs =>
    match matchMetadataBlockAt (c :: cs) with
    | some rest => '\n' :: removeMetadataBlocks fuel rest
    | none => c :: removeMetadataBlocks fuel cs

/-- One line of `re.sub(r"(?im)^\s*LIT\s*:.*$", "", cleaned)`: a line is
blanked when, after leading whitespace, it starts with `lit` (case
insensitive) followed by optional whitespace and a colon. -/
def lineMatchesLabel (lit : List Char) (line : List Char) : Bool :=
  let r := line.dropWhile Char.isWhitespace
  if ciIsPrefixOf lit r then
    match (r.drop lit.length).dropWhile Char.isWhitespace with
    | ':' :: _ => true
    | _ => false
  else false

def removeLabeledLines (lit : List Char) (s : List Char) : List Char :=
  let lines := splitOnPred (· = '\n') s
  List.intercalate ['\n'] (lines.map (fun l => if lineMatchesLabel lit l then [] else l))

/-- `re.sub(r"(?m)^\s*---\s*$", "", cleaned)`. -/
def isDashOnlyLine (line : List Char) : Bool :=
  let r := line.dropWhile Char.isWhitespace
  ciIsPrefixOf "---".data r && (r.drop 3).all Char.isWhitespace && r ≠ []

def removeDashOnlyLines (s : List Char) : List Char :=
  let lines := splitOnPred (· = '\n') s
  List.intercalate ['\n'] (lines.map (fun l => if isDashOnlyLine l then [] else l))

/-- `re.sub(r"\n{3,}", "\n\n", cleaned)`. -/
def collapseNewlineRuns : Nat → List Char → List Char
  | 0, cs => cs
  | _ + 1, [] => []
  | fuel + 1, c :: cs =>
    if c = '\n' then
      let run := 1 + (cs.takeWhile (· = '\n')).length
      let rest := cs.dropWhile (· = '\n')
      if run ≥ 3 then '\n' :: '\n' :: collapseNewlineRuns fuel rest
      else c :: cs.takeWhile (· = '\n') ++ collapseNewlineRuns fuel rest
    else c :: collapseNewlineRuns fuel cs

/-- The cleaning pipeline of `strip_retail_metadata` (utilities.py lines
96-110): block removal, the four label-line removals, dash-line removal,
newline collapsing, and the final strip. -/
def strip_retail_metadata_core (response : String) : String :=
  let cleaned := response.data
  let cleaned := removeMetadataBlocks cleaned.length cleaned
  let cleaned := removeLabeledLines "STATE".data cleaned
  let cleaned := removeLabeledLines "ROUTING".data cleaned
  let cleaned := removeLabeledLines "INVENTORY_CHECKED".data cleaned
  let cleaned := removeLabeledLines "ITERATION_COUNT".data cleaned
  let cleaned := removeDashOnlyLines cleaned
  pyStrip (String.mk (collapseNewlineRuns cleaned.length cleaned))

/-- `strip_retail_metadata` (utilities.py lines 91-112): run the cleaning
pipeline; if it left nothing, fall back to the stripped original (line 112's
`cleaned if cleaned else str(response).strip()`). -/
def strip_retail_metadata (response : String) : String :=
  if response = "" then response
  else
    let cleaned := strip_retail_metadata_core response
    if cleaned ≠ "" then cleaned else pyStrip response

/-! ## utilities.py : extract_requirements -/

structure SpecEmbed where
  response : String := ""
deriving Repr, DecidableEq, Inhabited

/-- One conversation-history message (a Python dict with optional keys). -/
structure HistMsg where
  role : Option String := none
  content : Option String := none
  specialist_responses : List SpecEmbed := []
deriving Repr, DecidableEq, Inhabited

structure Requirements where
  budget : Option String := none
  region : Option String := none
  usage : Option String := none
  features : List String := []
  constraints : List String := []
deriving Repr, DecidableEq, Inhabited

/-- The currency alternation of the budget patterns (utilities.py lines
132-133), in the source's alternation order.  The third token is the
mojibake rendering of the euro sign actually present in the file's bytes:
`0xC3 0xA2, 0xE2 0x80 0x9A, 0xC2 0xAC` decode to U+00E2, U+201A, U+00AC. -/
def currencyTokens : List (List Char) :=
  ["eur".data, "euro".data, [Char.ofNat 0xE2, Char.ofNat 0x201A, Char.ofNat 0xAC], "dollar".data, "$".data]

/-- Consume `(?:[.,]\d+)*` greedily (fuel = list length). -/
def consumeSepDigitGroups : Nat → List Char → List Char
  | 0, cs => cs
  | _ + 1, [] => []
  | fuel + 1, c :: cs =>
    if c = '.' || c = ',' then
      let ds := cs.takeWhile Char.isDigit
      if ds ≠ [] then consumeSepDigitGroups fuel (cs.dropWhile Char.isDigit)
      else c :: cs
    else c :: cs

/-- Match `(\d+(?:[.,]\d+)*)\s*(eur|euro|â‚¬|dollar|\$)` at the start of
`cs`, returning the matched length.  The quantifiers are greedy; shrinking
them can never rescue a failed continuation here (the continuation never
starts with a digit, separator or whitespace), so the greedy scan is exactly
`re.search`'s behaviour at this position. -/
def budgetLenAt1 (cs : List Char) : Option Nat :=
  let ds := cs.takeWhile Char.isDigit
  if ds = [] then none
  else
    let r1 := cs.dropWhile Char.isDigit
    let r2 := consumeSepDigitGroups r1.length r1
    let r3 := r2.dropWhile Char.isWhitespace
    match currencyTokens.find? (·.isPrefixOf r3) with
    | some t => some (cs.length - r3.length + t.length)
    | none => none

/-- Match `(eur|euro|â‚¬|dollar|\$)\s*(\d+(?:[.,]\d+)*)` at the start of
`cs` (the alternation backtracks across tokens, e.g. `eur` then `euro`). -/
def budgetLenAt2 (cs : List Char) : Option Nat :=
  currencyTokens.findSome? fun t =>
    if t.isPrefixOf cs then
      let r1 := (cs.drop t.length).dropWhile Char.isWhitespace
      let ds := r1.takeWhile Char.isDigit
      if ds = [] then none
      else
        let r2 := consumeSepDigitGroups (r1.dropWhile Char.isDigit).length (r1.dropWhile Char.isDigit)
        some (cs.length - r2.length)
    else none

/-- Leftmost search returning `group(0)` of the first position where the
positional matcher succeeds. -/
def searchLen (f : List Char → Option Nat) : List Char → Option String
  | [] =>
    match f [] with
    | some n => some (String.mk (([] : List Char).take n))
    | none => none
  | c :: cs =>
    match f (c :: cs) with
    | some n => some (String.mk ((c :: cs).take n))
    | none => searchLen f cs

def requirementRegions : List String :=
  ["germany", "france", "austria", "switzerland", "europe"]

def requirementFeatures : List String :=
  ["ice maker", "water dispenser", "french door", "energy efficient", "smart"]

/-- `extract_requirements` (utilities.py lines 115-150).  The scan joins the
contents of the last five history entries; `usage` and `constraints` are
initialised and never assigned. -/
def extract_requirements (conversation_history : List HistMsg) : Requirements :=
  if conversation_history = [] then {}
  else
    let last5 := conversation_history.drop (conversation_history.length - 5)
    let text := String.intercalate " " (last5.map (fun m => m.content.getD ""))
    let tl := pyLower text
    let budget :=
      match searchLen budgetLenAt1 tl.data with
      | some m => some m
      | none => searchLen budgetLenAt2 tl.data
    let region := (requirementRegions.find? (fun r => strContains tl r)).map pyTitle
    let features := requirementFeatures.filter (fun f => strContains tl f)
    { budget := budget, region := region, usage := none, features := features, constraints := [] }

/-! ## utilities.py : extract_product_details -/

structure ProductDetails where
  product_model : Option String := none
  key_features : List String := []
deriving Repr, DecidableEq, Inhabited

/-- Character class `[A-Za-z0-9\-_/]` of the `model:` pattern. -/
def isModelTailChar (c : Char) : Bool :=
  c.isAlphanum || c = '-' || c = '_' || c = '/'

/-- Positional matcher for `\bmodel\s*[:#-]?\s*([A-Za-z0-9][A-Za-z0-9\-_/]{1,30})\b`
(utilities.py line 196; case sensitive).  The greedy tail is shrunk only for
the final `\b` — shrinking `\s*` or `[:#-]?` can never rescue a failure
because the captured group must start with an alphanumeric character. -/
def matchModelColonAt (prev : Option Char) (cs : List Char) : Option String :=
  if ! boundaryBefore prev then none
  else if "model".data.isPrefixOf cs then
    let r1 := (cs.drop 5).dropWhile Char.isWhitespace
    let r2 :=
      match r1 with
      | c :: rest => if c = ':' || c = '#' || c = '-' then rest else r1
      | [] => r1
    let r3 := r2.dropWhile Char.isWhitespace
    match r3 with
    | c :: rest =>
      if c.isAlphanum then
        let tl := (rest.takeWhile isModelTailChar).take 30
        let restAfter := rest.drop tl.length
        match shrinkForBoundary 1 tl.reverse restAfter with
        | some kept => some (String.mk (c :: kept))
        | none => none
      else none
    | [] => none
  else none

/-- Character class `[A-Z0-9-]` of the model-code patterns. -/
def isModelCodeChar (c : Char) : Bool :=
  c.isUpper || c.isDigit || c = '-'

/-- Positional matcher for `\b([A-Z]{1,5}-\d{2,6}[A-Z0-9-]*)\b` (utilities.py
line 197).  `\d{2,6}[A-Z0-9-]*` is handled as one greedy `[A-Z0-9-]` run that
must begin with at least two digits (any cut of length ≥ 2 is expressible by
the two quantifiers), shrunk only for the final `\b`. -/
def matchUpperDashAt (prev : Option Char) (cs : List Char) : Option String :=
  if ! boundaryBefore prev then none
  else
    let us := cs.takeWhile Char.isUpper
    if us.length < 1 || us.length > 5 then none
    else
      match cs.drop us.length with
      | '-' :: r1 =>
        let ds := r1.takeWhile Char.isDigit
        if ds.length < 2 then none
        else
          let tl := r1.takeWhile isModelCodeChar
          let restAfter := r1.drop tl.length
          match shrinkForBoundary 2 tl.reverse restAfter with
          | some kept => some (String.mk (us ++ '-' :: kept))
          | none => none
      | _ => none

/-- Positional matcher for `\b([A-Z]{2,5}\d{2,6}[A-Z0-9-]*)\b` (utilities.py
line 198), with the same greedy-run treatment as `matchUpperDashAt`. -/
def matchUpperNumAt (prev : Option Char) (cs : List Char) : Option String :=
  if ! boundaryBefore prev then none
  else
    let us := cs.takeWhile Char.isUpper
    if us.length < 2 || us.length > 5 then none
    else
      let r1 := cs.drop us.length
      let ds := r1.takeWhile Char.isDigit
      if ds.length < 2 then none
      else
        let tl := r1.takeWhile isModelCodeChar
        let restAfter := r1.drop tl.length
        match shrinkForBoundary 2 tl.reverse restAfter with
        | some kept => some (String.mk (us ++ kept))
        | none => none

def modelStopwords : List String := ["from", "with", "this", "that", "model"]

/-- The `for pattern in model_patterns` loop of utilities.py lines 201-207:
per pattern, one leftmost search; a match whose candidate is a stop word does
not stop the loop, the next pattern is tried instead. -/
def pickModel (text : List Char) : Option String :=
  [scanPos matchModelColonAt none text,
   scanPos matchUpperDashAt none text,
   scanPos matchUpperNumAt none text].findSome? fun res =>
    match res with
    | some m =>
      let candidate := pyStrip m
      if candidate ≠ "" && ! modelStopwords.contains (pyLower candidate) then some candidate
      else none
    | none => none

/-- Result of `json.loads` on an embedded blob, restricted to the keys the
source reads.  `none` models both a parse failure and a missing key; list
entries that are not dicts are modelled as the all-`none` record, matching
`recommended[0] if isinstance(recommended[0], dict) else {}`. -/
structure RecModel where
  model_number : Option String := none
  model_name : Option String := none
  features : Option (List String) := none
deriving Repr, DecidableEq, Inhabited

structure JsonBlob where
  product_model : Option String := none
  key_features : Option (List String) := none
  recommended_models : Option (List RecModel) := none
deriving Repr, DecidableEq, Inhabited

/-- Lazy `[\s\S]*?\}` step of the fenced-JSON pattern: the earliest `}` that
is followed by optional whitespace and a closing fence.  Returns the blob
(reversed accumulator completed) and the rest after the fence. -/
def findCloseBrace : Nat → List Char → List Char → Option (List Char × List Char)
  | 0, _, _ => none
  | _ + 1, _, [] => none
  | fuel + 1, acc, c :: rest =>
    if c = '}' && ciIsPrefixOf "```".data (rest.dropWhile Char.isWhitespace) then
      some (('}' :: acc).reverse, (rest.dropWhile Char.isWhitespace).drop 3)
    else findCloseBrace fuel (c :: acc) rest

/-- `re.findall(r"```json\s*(\{[\s\S]*?\})\s*```", text, re.IGNORECASE)`
(utilities.py line 225). -/
def fencedJsonAux : Nat → List Char → List String
  | 0, _ => []
  | _ + 1, [] => []
  | fuel + 1, c :: rest =>
    if ciIsPrefixOf "```json".data (c :: rest) then
      let r1 := ((c :: rest).drop 7).dropWhile Char.isWhitespace
      match r1 with
      | '\x7b' :: r2 =>
        match findCloseBrace r2.length ['\x7b'] r2 with
        | some (blob, after) => String.mk blob :: fencedJsonAux fuel after
        | none => fencedJsonAux fuel rest
      | _ => fencedJsonAux fuel rest
    else fencedJsonAux fuel rest

/-- `re.findall(r"(\{[\s\S]*\})", text)` (utilities.py line 229): a single
greedy match from the first opening brace to the last closing brace, when the
latter follows the former. -/
def looseJsonBlob (text : List Char) : List String :=
  let pre := text.dropWhile (· ≠ '\x7b')
  if pre = [] then []
  else
    let post := pre.reverse.dropWhile (· ≠ '\x7d')
    if post = [] then [] else [String.mk post.reverse]

def productFeatureKeywords : List String :=
  ["ice maker", "water dispenser", "french door", "energy efficient",
   "energy-efficient", "no frost", "a+++", "nofrost", "biofresh", "smart"]

/-- `a or b` for possibly-empty string fields (Python falsy chaining). -/
def orFalsy (a b : Option String) : Option String :=
  match a with
  | some s => if s ≠ "" then some s else b
  | none => b

/-- The final de-duplication loop of utilities.py lines 266-273. -/
def dedupFeatures : List String → List String → List String
  | _, [] => []
  | seen, f :: fs =>
    let value := pyLower (pyStrip f)
    if value = "" || seen.contains value then dedupFeatures seen fs
    else value :: dedupFeatures (value :: seen) fs

/-- `extract_product_details` (utilities.py lines 169-276).  `jsonParse`
models `json.loads` restricted to the keys the function reads; `none` is a
parse failure (the `except: continue` branch). -/
def extract_product_details (jsonParse : String → Option JsonBlob)
    (conversation_history : List HistMsg) : ProductDetails :=
  if conversation_history = [] then {}
  else
    let recent := conversation_history.drop (conversation_history.length - 12)
    let parts := recent.flatMap fun m =>
      (if m.content.getD "" ≠ "" then [m.content.getD ""] else []) ++
        m.specialist_responses.filterMap
          (fun s => if s.response ≠ "" then some s.response else none)
    let text := String.intercalate " " parts
    let tl := pyLower text
    let model0 := pickModel text.data
    let feats0 := productFeatureKeywords.filter (fun f => strContains tl f)
    let fenced := fencedJsonAux text.data.length text.data
    let candidates := if fenced ≠ [] then fenced else looseJsonBlob text.data
    let (model1, feats1) :=
      match candidates.findSome? jsonParse with
      | some parsed =>
        let m1 := orFalsy parsed.product_model model0
        let m1 := if model0.isSome then model0 else m1
        let f1 := feats0 ++
          (parsed.key_features.getD []).filterMap
            (fun it => if it ≠ "" then some (pyLower (pyStrip it)) else none)
        match parsed.recommended_models with
        | some (first :: _) =>
          let m2 := if m1.isSome then m1
                    else orFalsy first.model_number (orFalsy first.model_name m1)
          let f2 := f1 ++
            (first.features.getD []).filterMap
              (fun it => if it ≠ "" then some (pyLower (pyStrip it)) else none)
          (m2, f2)
        | _ => (m1, f1)
      | none => (model0, feats0)
    let featsFinal :=
      if feats1 = [] then (extract_requirements conversation_history).features else feats1
    { product_model := model1, key_features := dedupFeatures [] featsFinal }

/-! ## utilities.py : validators and icons -/

/-- `validate_insurance_context` (utilities.py lines 279-292).  The budget
and model values produced by the extractors are never the empty string, so
Python's truthiness tests coincide with `isSome`. -/
def validate_insurance_context (jsonParse : String → Option JsonBlob)
    (state : StateD) (conversation_history : List HistMsg) : Bool × Option String :=
  if state.product_status ≠ some "agreed" then
    (false, some "Product not yet agreed - cannot offer insurance")
  else
    let requirements := extract_requirements conversation_history
    if requirements.budget.isNone then
      (false, some "Product price not confirmed - cannot calculate premium")
    else
      let product_details := extract_product_details jsonParse conversation_history
      if product_details.product_model.isNone then
        (false, some "Product model not confirmed - please confirm selected model before insurance")
      else (true, none)

/-- `validate_product_context` (utilities.py lines 295-301). -/
def validate_product_context (conversation_history : List HistMsg) : Bool :=
  let requirements := extract_requirements conversation_history
  requirements.budget.isSome || requirements.region.isSome || requirements.features.length > 0

/-- `get_agent_icon` (utilities.py lines 304-327).  The PNG branch depends on
the deployment filesystem (an `assets` directory next to the sources); the
embedding models the repository as shipped, where the lookup falls back to
the emoji.  The emoji literals are the mojibake sequences actually stored in
the file.  No claim depends on icon values. -/
def get_agent_icon (agent_name : String) : String :=
  let n := pyLower agent_name
  if n = "retail_agent" then "ğŸ›’"
  else if n = "buybuddy" then "ğŸ›’"
  else if n = "fridgebuddy" then "ğŸ“¦"
  else if n = "insurancebuddy" then "ğŸ›¡ï¸"
  else if n = "customer" then "ğŸ‘¤"
  else "ğŸ’¬"

/-! ## retail_orchestrator_agent.py : routes, sanitizers, specialist entries -/

/-- `INSURANCE_ROUTE` and the legacy alias built by string concatenation at
line 24 (`"er" + "go_agent"`). -/
def INSURANCE_ROUTE : String := "insurance_agent"

def LEGACY_INSURANCE_ROUTE : String := "er" ++ "go_agent"

/-- `_normalize_route_name` (lines 27-31).  `str(route_name or "none")` turns
a missing or empty value into `"none"`; callers pass `getD "none"` for the
missing case, the empty string is handled here. -/
def normalize_route_name (route_name : String) : String :=
  let route_value := pyLower (pyStrip (if route_name = "" then "none" else route_name))
  if route_value = LEGACY_INSURANCE_ROUTE then INSURANCE_ROUTE else route_value

/-- `re.sub(r"\s+\d+\s*$", "", message)` of `_sanitize_customer_response`
(line 112): remove a trailing run of whitespace, then digits, then optional
whitespace, provided the digits are preceded by at least one whitespace
character (the leftmost `\s+` consumes the whole run). -/
def stripTrailingNumberWs (s : String) : String :=
  let rev := s.data.reverse
  let r1 := rev.dropWhile Char.isWhitespace
  let ds := r1.takeWhile Char.isDigit
  if ds = [] then s
  else
    let r2 := r1.dropWhile Char.isDigit
    if r2.takeWhile Char.isWhitespace = [] then s
    else String.mk ((r2.dropWhile Char.isWhitespace).reverse)

/-- `_sanitize_customer_response` (lines 107-126). -/
def sanitize_customer_response (text : String) : String :=
  let message := pyStrip text
  if message = "" then ""
  else
    let message := pyStrip (stripTrailingNumberWs message)
    let has_large_json_blob :=
      (strContains message "\x7b" && strContains message "\x7d" && message.length > 250)
        || strContains message "recommended_models"
        || strContains message "coverage_options"
    if has_large_json_blob then
      let pre := pyStrip (String.mk (takeUntilSub "Product update:".data message.data))
      if pre ≠ "" then pre
      else "I reviewed your request and coordinated with our specialists."
    else message

/-- `_format_specialist_response` (lines 129-151) for a string payload (the
payloads reaching it in the orchestrator are strings).  `tryPrettyJson`
bundles `_extract_json_dict` followed by `json.dumps(..., indent=2)`: `some`
is a successful tolerant parse with its pretty-printed text, `none` covers a
parse failure or a dumps exception, in which case the stripped text passes
through. -/
def format_specialist_response (tryPrettyJson : String → Option String) (payload : String) : String :=
  let text := pyStrip payload
  if text = "" then ""
  else
    match tryPrettyJson text with
    | some pretty => pretty
    | none => text

def productPlaceholderText : String :=
  "Product specialist did not return concrete model recommendations yet. Please retry once to fetch model-level availability."

def insurancePlaceholderText : String :=
  "Insurance specialist did not return a complete quote yet. Please retry once."

/-- A normalized specialist-response entry (the dicts produced by
`_normalize_specialist_entries` and by the call sites).  `raw_response` is
`none` for the System entries appended without that key. -/
structure Entry where
  agent : String := "System"
  response : String := ""
  raw_response : Option String := none
  icon : String := ""
  css_class : String := ""
  exchange_format : String := "json"
deriving Repr, DecidableEq, Inhabited

/-- A raw specialist-response entry as found in a parsed orchestrator-agent
reply (a dict with optional keys).  A `specialist_responses` value that is
not a list, and entries that are not dicts, normalize to nothing (lines
156-161) and are therefore modelled by the empty list / by absence. -/
structure EntryRaw where
  agent : Option String := none
  response : Option String := none
  raw_response : Option String := none
  icon : Option String := none
  css_class : Option String := none
  exchange_format : Option String := none
deriving Repr, DecidableEq, Inhabited

/-- `_normalize_specialist_entries` (lines 154-201). -/
def normalize_specialist_entries (tryPrettyJson : String → Option String)
    (entries : List EntryRaw) : List Entry :=
  entries.map fun entry =>
    let agent_name := pyStrip (entry.agent.getD "System")
    let lowerName := pyLower agent_name
    let response0 := entry.response.getD ""
    let raw_out := some (entry.raw_response.getD (entry.response.getD ""))
    if strContains lowerName "product specialist" then
      let r := format_specialist_response tryPrettyJson (entry.raw_response.getD response0)
      let r := if pyStrip r = "" then productPlaceholderText else r
      { agent := agent_name, response := r, raw_response := raw_out,
        icon := entry.icon.getD (get_agent_icon "product_specialist"),
        css_class := entry.css_class.getD "product-message",
        exchange_format := entry.exchange_format.getD "json" }
    else if strContains lowerName "insurance specialist" then
      let r := format_specialist_response tryPrettyJson (entry.raw_response.getD response0)
      let r := if pyStrip r = "" then insurancePlaceholderText else r
      { agent := agent_name, response := r, raw_response := raw_out,
        icon := entry.icon.getD (get_agent_icon "insurance_specialist"),
        css_class := entry.css_class.getD "insurance-message",
        exchange_format := entry.exchange_format.getD "json" }
    else if strContains lowerName "system" then
      { agent := "System", response := response0, raw_response := raw_out,
        icon := entry.icon.getD "ℹ️",
        css_class := entry.css_class.getD "system-message",
        exchange_format := entry.exchange_format.getD "json" }
    else
      { agent := agent_name, response := response0, raw_response := raw_out,
        icon := entry.icon.getD "💬",
        css_class := entry.css_class.getD "chat-message",
        exchange_format := entry.exchange_format.getD "json" }

/-- `_has_non_system_specialist_response` (lines 212-223). -/
def has_non_system_specialist_response (specialist_responses : List Entry) : Bool :=
  specialist_responses.any fun item =>
    let agent_name := pyLower (pyStrip item.agent)
    agent_name ≠ "" && ! strContains agent_name "system"

/-- `_has_product_specialist_response` (lines 226-237). -/
def has_product_specialist_response (specialist_responses : List Entry) : Bool :=
  specialist_responses.any fun item =>
    strContains (pyLower (pyStrip item.agent)) "product specialist"

def productInferTokens : List String :=
  ["route to product specialist", "consult product specialist",
   "proceeding to consult product specialist", "product specialist",
   "route to product_agent"]

def insuranceInferTokens : List String :=
  ["route to insurance specialist", "consult insurance specialist",
   "insurance specialist", "route to insurance_agent"]

/-- `_infer_routing_from_system_messages` (lines 240-282). -/
def infer_routing_from_system_messages (specialist_responses : List Entry)
    (state : StateD) : String :=
  let system_text := specialist_responses.filterMap fun item =>
    if strContains (pyLower (pyStrip item.agent)) "system" then
      let text := pyLower (pyStrip item.response)
      if text ≠ "" then some text else none
    else none
  let joined := String.intercalate " " system_text
  if productInferTokens.any (fun t => strContains joined t) then "product_agent"
  else if insuranceInferTokens.any (fun t => strContains joined t) then INSURANCE_ROUTE
  else
    let state_routing := normalize_route_name (state.routing.getD "none")
    if state_routing = "product_agent" || state_routing = INSURANCE_ROUTE then state_routing
    else "none"

/-! ## retail_orchestrator_agent.py : inventory-check synthesis -/

/-- An inventory-check payload (raw or normalized); `none`-valued fields are
missing keys or `None` values.  An `internal_match_found` value of a type
other than `bool`/`None` behaves exactly like `None` in the source (the
`isinstance` test fails), so `Option Bool` is faithful. -/
structure IOpt where
  model_name : String := ""
  model_number : String := ""
  dimensions : Option String := none
  niche : Option String := none
  capacity : Option String := none
  energy_class : Option String := none
  noise : Option String := none
  price : Option String := none
  availability : String := ""
deriving Repr, DecidableEq, Inhabited

structure Inv where
  checked : Bool := false
  phase : Option Nat := none
  summary : Option String := none
  details : Option String := none
  internal_match_found : Option Bool := none
  internal_options : List IOpt := []
  no_match_reason : Option String := none
  first_check : Bool := false
deriving Repr, DecidableEq, Inhabited

def defaultInventorySummary : String := "Internal inventory check performed"

def defaultInventoryDetails : String :=
  "Checked internal systems and internal knowledge base for suitable standard-niche options."

/-- `_build_inventory_check_payload` (lines 285-295). -/
def build_inventory_check_payload (state : StateD) (first_check : Bool := true) : Inv :=
  { checked := true,
    phase := some (map_state_to_phase state),
    summary := some defaultInventorySummary,
    details := some defaultInventoryDetails,
    internal_match_found := none,
    internal_options := [],
    no_match_reason := some "",
    first_check := first_check }

def positiveDetailTokens : List String :=
  ["confirms multiple", "multiple", "available", "candidates were found",
   "internal options", "in stock"]

def negativeDetailTokens : List String :=
  ["no match", "no internal match", "not available", "no options", "none found"]

/-- `_details_indicate_internal_match` (lines 298-321). -/
def details_indicate_internal_match (details_text : String) : Bool :=
  let details := pyLower details_text
  if details = "" then false
  else if negativeDetailTokens.any (fun t => strContains details t) then false
  else positiveDetailTokens.any (fun t => strContains details t)

def isAlnumDash (c : Char) : Bool :=
  c.isAlphanum || c = '-'

/-- Positional matcher for the option-line pattern
`\b([A-Za-z]{2,8}[A-Za-z0-9-]{1,})\s+([A-Za-z0-9-]{2,})\b` (line 334).
Group 1 is a maximal `[A-Za-z0-9-]` run that begins with at least two
letters and has at least three characters (any such run is expressible by
the two greedy sub-quantifiers, and letters beyond the first eight are
absorbed by the second class); shrinking it cannot rescue the following
`\s+`.  Group 2 is greedy, shrunk only for its trailing `\b`. -/
def matchOptionModelAt (prev : Option Char) (cs : List Char) :
    Option (List Char × List Char) :=
  if ! boundaryBefore prev then none
  else
    let letters := cs.takeWhile Char.isAlpha
    if letters.length < 2 then none
    else
      let run := cs.takeWhile isAlnumDash
      if run.length < 3 then none
      else
        let r1 := cs.drop run.length
        match r1 with
        | c :: _ =>
          if ! c.isWhitespace then none
          else
            let r2 := r1.dropWhile Char.isWhitespace
            let tl2 := r2.takeWhile isAlnumDash
            let restAfter := r2.drop tl2.length
            match shrinkForBoundary 2 tl2.reverse restAfter with
            | some g2 => some (run, g2)
            | none => none
        | [] => none

/-- `\d{2,3}(?:[\.,]\d)?`: possible rests after the greedy alternatives, in
the engine's preference order (three digits before two, with the optional
fraction before without). -/
def numPart23 (cs : List Char) : List (List Char) :=
  let withFrac : List Char → List (List Char) := fun r =>
    match r with
    | c :: d :: rest => if (c = '.' || c = ',') && d.isDigit then [rest, r] else [r]
    | _ => [r]
  let d3 := if (cs.take 3).length = 3 && (cs.take 3).all Char.isDigit then withFrac (cs.drop 3) else []
  let d2 := if (cs.take 2).length = 2 && (cs.take 2).all Char.isDigit then withFrac (cs.drop 2) else []
  d3 ++ d2

def isXSep (c : Char) : Bool :=
  c = 'x' || c = 'X' || c = '×'

/-- Positional matcher (no `\b`) for the dimensions pattern (lines 346-350):
`\d{2,3}(?:[\.,]\d)?\s*[x×]\s*` three times, ending in `cm`
(case-insensitive); returns the matched length. -/
def dimensionsAt (cs : List Char) : Option Nat :=
  (numPart23 cs).findSome? fun r1 =>
    match r1.dropWhile Char.isWhitespace with
    | x :: r2 =>
      if isXSep x then
        (numPart23 (r2.dropWhile Char.isWhitespace)).findSome? fun r3 =>
          match r3.dropWhile Char.isWhitespace with
          | y :: r4 =>
            if isXSep y then
              (numPart23 (r4.dropWhile Char.isWhitespace)).findSome? fun r5 =>
                let r5b := r5.dropWhile Char.isWhitespace
                if ciIsPrefixOf "cm".data r5b then some (cs.length - r5b.length + 2)
                else none
            else none
          | [] => none
      else none
    | [] => none

/-- Positional matcher for `niche\s*:?\s*\d{2,3}(?:[\.,]\d)?\s*cm` (line 351),
returning the matched length. -/
def nicheAt (cs : List Char) : Option Nat :=
  if ciIsPrefixOf "niche".data cs then
    let r1 := (cs.drop 5).dropWhile Char.isWhitespace
    let r2 :=
      match r1 with
      | ':' :: rest => rest.dropWhile Char.isWhitespace
      | _ => r1
    (numPart23 r2).findSome? fun r3 =>
      let r3b := r3.dropWhile Char.isWhitespace
      if ciIsPrefixOf "cm".data r3b then some (cs.length - r3b.length + 2) else none
  else none

/-- Positional matcher for `(\d{2,3}\s*l)\b` (line 352), returning the
matched length. -/
def capacityAt (cs : List Char) : Option Nat :=
  let tryLen : Nat → Option Nat := fun k =>
    if (cs.take k).length = k && (cs.take k).all Char.isDigit then
      let r := (cs.drop k).dropWhile Char.isWhitespace
      match r with
      | c :: rest =>
        if (c = 'l' || c = 'L') && boundaryAfter c rest then
          some (cs.length - rest.length)
        else none
      | [] => none
    else none
  match tryLen 3 with
  | some n => some n
  | none => tryLen 2

def isEnergyLetter (c : Char) : Bool :=
  let l := c.toLower
  'a' ≤ l && l ≤ 'f'

/-- Positional matcher for `\b(?:energy\s*class\s*)?([A-F])\b` with
`re.IGNORECASE` (line 353); returns group 1. -/
def energyAt (prev : Option Char) (cs : List Char) : Option String :=
  if ! boundaryBefore prev then none
  else
    let letterAt : List Char → Option String := fun r =>
      match r with
      | c :: rest => if isEnergyLetter c && boundaryAfter c rest then some (String.mk [c]) else none
      | [] => none
    let withGroup :=
      if ciIsPrefixOf "energy".data cs then
        let r1 := (cs.drop 6).dropWhile Char.isWhitespace
        if ciIsPrefixOf "class".data r1 then
          letterAt ((r1.drop 5).dropWhile Char.isWhitespace)
        else none
      else none
    match withGroup with
    | some v => some v
    | none => letterAt cs

/-- Positional matcher for `(\d{2}\s*dB\(?A?\)?)` with `re.IGNORECASE`
(line 354), returning the matched length. -/
def noiseAt (cs : List Char) : Option Nat :=
  if (cs.take 2).length = 2 && (cs.take 2).all Char.isDigit then
    let r := (cs.drop 2).dropWhile Char.isWhitespace
    if ciIsPrefixOf "db".data r then
      let r1 := r.drop 2
      let r2 := match r1 with | '(' :: rest => rest | _ => r1
      let r3 := match r2 with | c :: rest => if c = 'a' || c = 'A' then rest else r2 | _ => r2
      let r4 := match r3 with | ')' :: rest => rest | _ => r3
      some (cs.length - r4.length)
    else none
  else none

/-- Positional matcher for `((?:~|ca\.?\s*)?\d{3,4}(?:[\.,]\d{2})?\s*€)` with
`re.IGNORECASE` (line 355), returning the matched length.  This file
(retail_orchestrator_agent.py) is valid UTF-8, so the euro sign here is the
real `€`. -/
def priceAt (cs : List Char) : Option Nat :=
  let digitsPart : List Char → Option Nat := fun r =>
    let tryLen : Nat → Option Nat := fun k =>
      if (r.take k).length = k && (r.take k).all Char.isDigit then
        let r1 := r.drop k
        let r2 :=
          match r1 with
          | c :: d :: e :: rest =>
            if (c = '.' || c = ',') && d.isDigit && e.isDigit then rest else r1
          | _ => r1
        let r3 := r2.dropWhile Char.isWhitespace
        match r3 with
        | '€' :: rest => some (r.length - rest.length)
        | _ => none
      else none
    match tryLen 4 with
    | some n => some n
    | none => tryLen 3
  let prefixes : List (Option (List Char)) :=
    [match cs with | '~' :: rest => some rest | _ => none,
     if ciIsPrefixOf "ca".data cs then
       let r1 := match cs.drop 2 with | '.' :: rest => rest | r => r
       some (r1.dropWhile Char.isWhitespace)
     else none,
     some cs]
  prefixes.findSome? fun pre =>
    match pre with
    | some r => (digitsPart r).map (fun n => cs.length - r.length + n)
    | none => none

/-- Turn a matched-length scan into a captured-substring scan (these
patterns have no `\b`, so the previous character is ignored). -/
def lenScan (f : List Char → Option Nat) (seg : List Char) : Option String :=
  scanPos (fun _ cs => (f cs).map (fun n => String.mk (cs.take n))) none seg

/-- The option record built for one segment (lines 357-369). -/
def optionFromSegment (g1 g2 seg : List Char) : IOpt :=
  { model_name := pyTitle (String.mk g1) ++ " " ++ pyUpper (String.mk g2),
    model_number := pyUpper (String.mk g2),
    dimensions := lenScan dimensionsAt seg,
    niche := lenScan nicheAt seg,
    capacity := lenScan capacityAt seg,
    energy_class := (scanPos energyAt none seg).map pyUpper,
    noise := lenScan noiseAt seg,
    price := lenScan priceAt seg,
    availability := "Available in internal stock" }

def collectOptions : List String → List (List Char) → List IOpt
  | _, [] => []
  | seen, seg :: rest =>
    match scanPos matchOptionModelAt none seg with
    | none => collectOptions seen rest
    | some (g1, g2) =>
      let model_name := pyTitle (String.mk g1) ++ " " ++ pyUpper (String.mk g2)
      if seen.contains model_name then collectOptions seen rest
      else optionFromSegment g1 g2 seg :: collectOptions (model_name :: seen) rest

/-- `_extract_internal_options_from_details` (lines 324-371). -/
def extract_internal_options_from_details (details_text : String) : List IOpt :=
  if details_text = "" then []
  else
    let pieces := splitOnPred (fun c => c = '\n' || c = ';') details_text.data
    let segments := (pieces.filter (fun s => pyStrip (String.mk s) ≠ "")).map
      (stripChars " •-\n\t".data)
    collectOptions [] segments

/-- `_default_internal_model_options` (lines 374-409). -/
def default_internal_model_options : List IOpt :=
  [{ model_name := "Series KIN86VFE0", model_number := "KIN86VFE0",
     dimensions := some "177.2 x 54.1 x 54.8 cm", niche := some "178 cm",
     capacity := some "260 l", energy_class := some "E", noise := some "35 dB",
     price := some "999 €", availability := "In stock" },
   { model_name := "Series KI86NADD0", model_number := "KI86NADD0",
     dimensions := some "177.2 x 54.1 x 54.8 cm", niche := some "178 cm",
     capacity := some "260 l", energy_class := some "D", noise := some "35 dB",
     price := some "1049 €", availability := "In stock" },
   { model_name := "Series KI7863SE0", model_number := "KI7863SE0",
     dimensions := some "177.2 x 54.1 x 54.8 cm", niche := some "178 cm",
     capacity := some "267 l", energy_class := some "E", noise := some "35 dB",
     price := some "1099 €", availability := "Limited stock" }]

def defaultNoMatchReason : String :=
  "No concrete internal model recommendations were returned from the internal knowledge base in this turn."

/-- `_normalize_inventory_check_payload` (lines 412-459); `none` for the
first argument models a non-dict payload. -/
def normalize_inventory_check_payload (inventory_check : Option Inv) (state : StateD) : Inv :=
  let inv :=
    match inventory_check with
    | some i => i
    | none => build_inventory_check_payload state (! state.inventory_checked)
  let phase := some (inv.phase.getD (map_state_to_phase state))
  let summary :=
    match inv.summary with
    | some s => if s = "" then defaultInventorySummary else s
    | none => defaultInventorySummary
  let details :=
    match inv.details with
    | some s => if s = "" then defaultInventoryDetails else s
    | none => defaultInventoryDetails
  let options0 := inv.internal_options
  let options1 := if options0 ≠ [] then options0 else extract_internal_options_from_details details
  let options2 :=
    if options1 = [] && details_indicate_internal_match details then default_internal_model_options
    else options1
  let imf :=
    match inv.internal_match_found with
    | some b => some b
    | none =>
      if options2 ≠ [] then some true
      else if details_indicate_internal_match details then some true
      else none
  let reason :=
    if imf = some false then
      match inv.no_match_reason with
      | some r => if r = "" then defaultNoMatchReason else r
      | none => defaultNoMatchReason
    else inv.no_match_reason.getD ""
  { checked := inv.checked, phase := phase, summary := some summary,
    details := some details, internal_match_found := imf,
    internal_options := options2, no_match_reason := some reason,
    first_check := inv.first_check }

/-! ## retail_orchestrator_agent.py : customer-intent gating -/

/-- `_latest_user_message_text` (lines 462-472). -/
def latest_user_message_text (conversation_history : List HistMsg) : String :=
  match conversation_history.reverse.find? (fun item => item.role = some "user") with
  | some item => pyLower (pyStrip (item.content.getD ""))
  | none => ""

/-- ASCII apostrophe, written via its code point to keep the file free of
stray quote characters. -/
def apostrophe : Char := Char.ofNat 39

/-- The rejection token list of `_has_customer_rejected_internal_options`
(lines 480-493); the fifth entry is `don`-apostrophe-`t like`. -/
def rejectionTokens : List String :=
  ["not interested", "not suitable", "none of these", "none work",
   "don" ++ String.mk [apostrophe] ++ "t like", "do not like", "reject",
   "not agree", "no agreement", "different options", "another option",
   "show more options"]

/-- `_has_customer_rejected_internal_options` (lines 475-494).  NOTE: this
function is defined in the source but never called anywhere in the
repository. -/
def has_customer_rejected_internal_options (conversation_history : List HistMsg) : Bool :=
  let text := latest_user_message_text conversation_history
  if text = "" then false
  else rejectionTokens.any (fun t => strContains text t)

/-- `\s+` step on the collapsed text: require at least one whitespace
character, consume the run. -/
def wsPlus (cs : List Char) : Option (List Char) :=
  match cs with
  | c :: _ => if c.isWhitespace then some (cs.dropWhile Char.isWhitespace) else none
  | [] => none

/-- `LIT` literal step (case-insensitive, as all these searches run under
`re.IGNORECASE`). -/
def litStep (w : String) (cs : List Char) : Option (List Char) :=
  if ciIsPrefixOf w.data cs then some (cs.drop w.length) else none

/-- Final `specialist\b` step shared by the explicit patterns. -/
def specialistEnd (cs : List Char) : Bool :=
  match litStep "specialist" cs with
  | some rest => boundaryAfter 't' rest
  | none => false

/-- `\bproduct\s*specialist\b`. -/
def patProductSpecialist (prev : Option Char) (cs : List Char) : Option Unit :=
  if ! boundaryBefore prev then none
  else
    match litStep "product" cs with
    | some r => if specialistEnd (r.dropWhile Char.isWhitespace) then some () else none
    | none => none

/-- `\bW1\s+to\s+product\s*specialist\b` for `W1 ∈ {refer, route}`. -/
def patToProductSpecialist (w1 : String) (prev : Option Char) (cs : List Char) : Option Unit :=
  if ! boundaryBefore prev then none
  else
    match litStep w1 cs with
    | some r1 =>
      match wsPlus r1 with
      | some r2 =>
        match litStep "to" r2 with
        | some r3 =>
          match wsPlus r3 with
          | some r4 =>
            match litStep "product" r4 with
            | some r5 => if specialistEnd (r5.dropWhile Char.isWhitespace) then some () else none
            | none => none
          | none => none
        | none => none
      | none => none
    | none => none

/-- `(W\s+)?` optional-group step: both continuations, group-first. -/
def optWordWs (w : String) (cs : List Char) : List (List Char) :=
  match litStep w cs with
  | some r =>
    match wsPlus r with
    | some r2 => [r2, cs]
    | none => [cs]
  | none => [cs]

/-- `\besc\w*\s+to\s+(the\s+)?(product\s+)?specialist\b`.  The greedy `\w*`
cannot usefully backtrack (shrinking it leaves a word character where `\s+`
needs whitespace). -/
def patEscToSpecialist (prev : Option Char) (cs : List Char) : Option Unit :=
  if ! boundaryBefore prev then none
  else
    match litStep "esc" cs with
    | some r1 =>
      match wsPlus (r1.dropWhile isWordChar) with
      | some r2 =>
        match litStep "to" r2 with
        | some r3 =>
          match wsPlus r3 with
          | some r4 =>
            if (optWordWs "the" r4).any
                (fun r5 => (optWordWs "product" r5).any (fun r6 => specialistEnd r6)) then
              some ()
            else none
          | none => none
        | none => none
      | none => none
    | none => none

/-- `\bW1\s+the\s+specialist\b` for `W1 ∈ {ask, contact}`. -/
def patTheSpecialist (w1 : String) (prev : Option Char) (cs : List Char) : Option Unit :=
  if ! boundaryBefore prev then none
  else
    match litStep w1 cs with
    | some r1 =>
      match wsPlus r1 with
      | some r2 =>
        match litStep "the" r2 with
        | some r3 =>
          match wsPlus r3 with
          | some r4 => if specialistEnd r4 then some () else none
          | none => none
        | none => none
      | none => none
    | none => none

/-- `\brefer\s+to\s+specialist\b`. -/
def patReferToSpecialist (prev : Option Char) (cs : List Char) : Option Unit :=
  if ! boundaryBefore prev then none
  else
    match litStep "refer" cs with
    | some r1 =>
      match wsPlus r1 with
      | some r2 =>
        match litStep "to" r2 with
        | some r3 =>
          match wsPlus r3 with
          | some r4 => if specialistEnd r4 then some () else none
          | none => none
        | none => none
      | none => none
    | none => none

/-- The `explicit_product_specialist_patterns` scan (lines 504-513). -/
def explicitSpecialistPatternHit (nt : List Char) : Bool :=
  (scanPos patProductSpecialist none nt).isSome
    || (scanPos (patToProductSpecialist "refer") none nt).isSome
    || (scanPos (patToProductSpecialist "route") none nt).isSome
    || (scanPos patEscToSpecialist none nt).isSome
    || (scanPos (patTheSpecialist "ask") none nt).isSome
    || (scanPos (patTheSpecialist "contact") none nt).isSome
    || (scanPos patReferToSpecialist none nt).isSome

def confirmationTokens : List String :=
  ["yes, route", "yes route", "go ahead", "proceed", "please proceed",
   "ask product specialist", "ask the specialist", "contact specialist",
   "refer to specialist", "route to specialist", "route to product specialist",
   "escalate", "esclaate", "esclate", "escalte", "ok to route", "confirm routing"]

def specialistTerms : List String := ["specialist", "product specialist"]

def escalationIntentTerms : List String :=
  ["escalat", "escla", "route", "refer", "contact", "connect", "transfer"]

/-- `_has_customer_confirmed_specialist_routing` (lines 497-543). -/
def has_customer_confirmed_specialist_routing (conversation_history : List HistMsg) : Bool :=
  let text := latest_user_message_text conversation_history
  if text = "" then false
  else
    let normalized_text := collapseWs text
    if explicitSpecialistPatternHit normalized_text.data then true
    else if confirmationTokens.any (fun t => strContains normalized_text t) then true
    else if specialistTerms.any (fun t => strContains normalized_text t)
        && escalationIntentTerms.any (fun t => strContains normalized_text t) then true
    else false

/-- `_has_failed_internal_option_agreement` (lines 546-562): true only when
specialist escalation is allowed by policy.  A non-dict `inventory_check`
is `none`. -/
def has_failed_internal_option_agreement (state : StateD) (inventory_check : Option Inv)
    (conversation_history : List HistMsg) : Bool :=
  let inventory_attempted :=
    state.inventory_checked || (match inventory_check with | some i => i.checked | none => false)
  if ! inventory_attempted then false
  else if (match inventory_check with | some i => i.internal_match_found | none => none) = some false then
    true
  else has_customer_confirmed_specialist_routing conversation_history

/-! ## retail_orchestrator_agent.py : result assembly -/

/-- `_build_user_summary` (lines 713-738). -/
def build_user_summary (base_text : String) (specialist_responses : List Entry) : String :=
  let base_message := pyStrip base_text
  if specialist_responses = [] then base_message
  else if base_message ≠ "" then base_message
  else
    let non_system := specialist_responses.filter (fun item => pyStrip item.agent ≠ "System")
    if non_system ≠ [] then "I checked with our specialists and shared their responses below."
    else
      let system_messages := specialist_responses.filterMap fun item =>
        if pyStrip item.agent = "System" then some (pyStrip item.response) else none
      match system_messages.find? (fun m => m ≠ "") with
      | some message => message
      | none => "I reviewed your request and prepared an update."

/-- The orchestrator-result payload dict (constant metadata fields
included). -/
structure ResultPayload where
  schema_version : String := "1.0"
  message_type : String := "orchestrator_result"
  source_agent : String := "retail_orchestrator_agent"
  target_agent : String := "retail_agent"
  state : StateD := {}
  routing : String := "none"
  inventory_check : Option Inv := none
  specialist_responses : List Entry := []
  customer_response : String := ""
  exchange_format : String := "json"
deriving Repr, DecidableEq, Inhabited

/-- `_ensure_inventory_check_payload` (lines 565-596).  The Python function
mutates `payload` and the state dict inside it; the model returns the
updated payload (its `state` field is the post-call value of that shared
state object). -/
def ensure_inventory_check_payload (payload : ResultPayload) (require_check : Bool := false) :
    ResultPayload :=
  let state_payload := payload.state
  let inventory_checked :=
    match payload.inventory_check with
    | some i => i.checked
    | none => false
  if ! require_check && ! state_payload.inventory_checked && inventory_checked then payload
  else if require_check && ! inventory_checked then
    let first_check := ! state_payload.inventory_checked
    { payload with
      inventory_check := some (normalize_inventory_check_payload
        (some (build_inventory_check_payload state_payload first_check)) state_payload),
      state := { state_payload with inventory_checked := true } }
  else
    let payload :=
      if state_payload.inventory_checked && ! inventory_checked then
        { payload with
          inventory_check := some (normalize_inventory_check_payload
            (some (build_inventory_check_payload state_payload true)) state_payload) }
      else payload
    match payload.inventory_check with
    | some i =>
      { payload with inventory_check := some (normalize_inventory_check_payload (some i) state_payload) }
    | none => payload

/-- A parsed orchestrator-agent reply that passed
`_is_valid_orchestrator_result` (lines 204-209): `message_type` is
`"orchestrator_result"` and `state` is a dict, so both are implicit in the
type; the remaining keys are optional. -/
structure ParsedOrch where
  state : StateD := {}
  routing : Option String := none
  inventory_check : Option Inv := none
  specialist_responses : List EntryRaw := []
  customer_response : Option String := none
deriving Repr, DecidableEq, Inhabited

/-- `_build_agent_result_payload` (lines 599-628).  Validity guarantees the
parsed result carries a state dict, so `fallback_state` is never selected;
the parameter is kept to mirror the source signature. -/
def build_agent_result_payload (tryPrettyJson : String → Option String)
    (parsed_result : ParsedOrch) (_fallback_state : StateD) : ResultPayload :=
  let state := parsed_result.state
  let specialist_responses := normalize_specialist_entries tryPrettyJson parsed_result.specialist_responses
  let inventory_check : Option Inv :=
    match parsed_result.inventory_check with
    | some i => some (normalize_inventory_check_payload (some i) state)
    | none =>
      if state.inventory_checked then
        some (normalize_inventory_check_payload
          (some (build_inventory_check_payload state true)) state)
      else none
  let customer_response := sanitize_customer_response (parsed_result.customer_response.getD "")
  let customer_response :=
    if customer_response = "" then "I reviewed your request and coordinated with the relevant specialist."
    else customer_response
  let customer_response := build_user_summary customer_response specialist_responses
  { state := state,
    routing := parsed_result.routing.getD (state.routing.getD "none"),
    inventory_check := inventory_check,
    specialist_responses := specialist_responses,
    customer_response := customer_response }

/-! ## retail_orchestrator_agent.py : orchestrate_customer_packet -/

/-- The customer packet (`routing_context`/`conversation`/`intake` values
that are missing or not dicts behave as empty dicts). -/
structure RoutingCtx where
  state : Option StateD := none
  routing_hint : Option String := none
deriving Repr, DecidableEq, Inhabited

structure ConvCtx where
  latest_user_input : Option String := none
deriving Repr, DecidableEq, Inhabited

structure IntakeCtx where
  customer_visible_draft : Option String := none
deriving Repr, DecidableEq, Inhabited

structure Packet where
  routing_context : Option RoutingCtx := none
  conversation : Option ConvCtx := none
  intake : Option IntakeCtx := none
deriving Repr, DecidableEq, Inhabited

/-- `routing_context.get("state", {})` with the non-dict guard (lines
758-764). -/
def packetState (packet : Packet) : StateD :=
  ((packet.routing_context.getD {}).state).getD {}

structure Counts where
  product_agent_calls : Nat := 0
  insurance_agent_calls : Nat := 0
deriving Repr, DecidableEq, Inhabited

inductive SpecCall where
  | productCall
  | insuranceCall
deriving Repr, DecidableEq, Inhabited

/-- The opaque externals of one turn: `tryPrettyJson` models the tolerant
JSON pretty-printer used on specialist text, `jsonParse` models `json.loads`
on embedded blobs, and the two responses model `get_product_response` /
`get_insurance_response` (`Except.error` is a raised exception with its
`str(ex)` text). -/
structure CallEnv where
  tryPrettyJson : String → Option String
  jsonParse : String → Option JsonBlob
  productResponse : Except String String
  insuranceResponse : Except String String

/-- The outcome of one `orchestrate_customer_packet` call.  Besides the
returned payload the model records: the final value of the packet's state
dict (`packetStateFinal`, for aliasing/mutation claims), the final iteration
counters, the specialist calls performed in order (`trace`), and two
diagnostic values read off the local variables at the inventory-first gate:
the resolved routing (`effective_routing` on the agent path, the pre-gate
`routing` on the fallback path) and the gate's value. -/
structure OrchOut where
  result : ResultPayload
  packetStateFinal : StateD
  counts : Counts
  trace : List SpecCall
  resolvedRouting : String
  gateAllowed : Bool
deriving Inhabited

def productDeferralEntry : Entry :=
  { agent := "System",
    response := "Internal inventory check is complete. Product specialist routing is deferred because internal matches are available. Escalation is allowed only if no internal match exists or you explicitly ask for the product specialist.",
    raw_response := none, icon := "ℹ️", css_class := "system-message",
    exchange_format := "json" }

def productDeferralText : String :=
  "I’ve completed the internal check first. I’ll escalate to the product specialist only if no internal match is available, or if you explicitly ask me to refer to the specialist."

def productCapEntry : Entry :=
  { agent := "System",
    response := "⚠️ Maximum product specialist iterations reached. Using best available information.",
    raw_response := none, icon := "⚠️", css_class := "system-message",
    exchange_format := "json" }

def insuranceCapEntry : Entry :=
  { agent := "System",
    response := "⚠️ Maximum insurance specialist iterations reached.",
    raw_response := none, icon := "⚠️", css_class := "system-message",
    exchange_format := "json" }

def productEntry (formatted raw : String) : Entry :=
  { agent := "Product Specialist", response := formatted, raw_response := some raw,
    icon := get_agent_icon "product_specialist", css_class := "product-message",
    exchange_format := "json" }

def insuranceEntry (formatted raw : String) : Entry :=
  { agent := "Insurance Specialist", response := formatted, raw_response := some raw,
    icon := get_agent_icon "insurance_specialist", css_class := "insurance-message",
    exchange_format := "json" }

def productUnavailableEntry (ex : String) : Entry :=
  { agent := "System", response := "⚠️ Product specialist unavailable: " ++ ex,
    raw_response := none, icon := "⚠️", css_class := "system-message",
    exchange_format := "json" }

def insuranceUnavailableEntry (ex : String) : Entry :=
  { agent := "System", response := "⚠️ Insurance specialist unavailable: " ++ ex,
    raw_response := none, icon := "⚠️", css_class := "system-message",
    exchange_format := "json" }

def cannotRouteInsuranceEntry (error_msg : Option String) : Entry :=
  { agent := "System",
    response := "⚠️ Cannot route to insurance specialist: " ++ error_msg.getD "None",
    raw_response := none, icon := "⚠️", css_class := "system-message",
    exchange_format := "json" }

def productRequestTerms : List String :=
  ["product_agent", "product agent", "product specialist", "refer to product",
   "refer to specialist"]

/-- The guarded product-specialist call of the primary path (lines 829-877).
`run` is the conjunction at the head of the `if` (line 829-839); when it does
not hold the block is a no-op — in particular a capped-out call is skipped
without appending anything. -/
def agent_product_block (env : CallEnv) (run : Bool) (rp3 : ResultPayload)
    (iteration_counts : Counts) : ResultPayload × Counts × List SpecCall :=
  if run then
    match env.productResponse with
    | Except.ok prod_response =>
      let formatted := format_specialist_response env.tryPrettyJson prod_response
      let formatted := if formatted = "" then productPlaceholderText else formatted
      let es := rp3.specialist_responses ++ [productEntry formatted prod_response]
      ({ rp3 with
          specialist_responses := es
          customer_response := build_user_summary rp3.customer_response es },
       { iteration_counts with product_agent_calls := iteration_counts.product_agent_calls + 1 },
       [SpecCall.productCall])
    | Except.error ex =>
      ({ rp3 with specialist_responses := rp3.specialist_responses ++ [productUnavailableEntry ex] },
       iteration_counts, [SpecCall.productCall])
  else (rp3, iteration_counts, [])

/-- The guarded insurance-specialist call of the primary path (lines
879-929); `run` is the conjunction at lines 879-884. -/
def agent_insurance_block (env : CallEnv) (run : Bool) (rp4 : ResultPayload)
    (conversation_history : List HistMsg) (counts4 : Counts) :
    ResultPayload × Counts × List SpecCall :=
  if run then
    match validate_insurance_context env.jsonParse rp4.state conversation_history with
    | (false, error_msg) =>
      ({ rp4 with specialist_responses := rp4.specialist_responses ++ [cannotRouteInsuranceEntry error_msg] },
       counts4, [])
    | (true, _) =>
      match env.insuranceResponse with
      | Except.ok insurance_response =>
        let es := rp4.specialist_responses ++
          [insuranceEntry (format_specialist_response env.tryPrettyJson insurance_response) insurance_response]
        let rp := { rp4 with
          specialist_responses := es
          customer_response := build_user_summary rp4.customer_response es }
        (ensure_inventory_check_payload rp true,
         { counts4 with insurance_agent_calls := counts4.insurance_agent_calls + 1 },
         [SpecCall.insuranceCall])
      | Except.error ex =>
        ({ rp4 with specialist_responses := rp4.specialist_responses ++ [insuranceUnavailableEntry ex] },
         counts4, [SpecCall.insuranceCall])
  else (rp4, counts4, [])

/-- The primary path of `orchestrate_customer_packet` after
`_build_agent_result_payload` (lines 777-931): routing normalization and
inference, the inventory-first gate, and the gated specialist blocks.
Exceptions can only arise from the two specialist calls, which sit in their
own `try`/`except` blocks (modelled by the `Except` results), so this path
always returns.  `orchestrateAgentPath` below instantiates it for a valid
parsed orchestrator reply (lines 766-775). -/
def agent_after_build (env : CallEnv) (state_from_packet : StateD) (rp0 : ResultPayload)
    (productAgent insuranceAgent : Bool) (conversation_history : List HistMsg)
    (iteration_counts : Counts) : OrchOut :=
  let routing_from_result := normalize_route_name (pyLower rp0.routing)
  let has_specialist := has_non_system_specialist_response rp0.specialist_responses
  let inferred_routing := infer_routing_from_system_messages rp0.specialist_responses rp0.state
  let eff0 :=
    if routing_from_result = "product_agent" || routing_from_result = INSURANCE_ROUTE then
      routing_from_result
    else inferred_routing
  let explicit_product_escalation := has_customer_confirmed_specialist_routing conversation_history
  let effAndPayload :=
    if explicit_product_escalation && productAgent then
      ("product_agent", { rp0 with routing := "product_agent" })
    else (eff0, rp0)
  let eff := effAndPayload.1
  let rp1 := effAndPayload.2
  let should_require_inventory :=
    eff = "product_agent" || has_product_specialist_response rp1.specialist_responses
  let rp2 := ensure_inventory_check_payload rp1 should_require_inventory
  let gate := has_failed_internal_option_agreement rp2.state rp2.inventory_check conversation_history
  let rp3 :=
    if eff = "product_agent" && ! gate then
      { rp2 with
        routing := "none"
        specialist_responses := [productDeferralEntry]
        customer_response := productDeferralText }
    else rp2
  let productStep :=
    agent_product_block env
      (! has_specialist && eff = "product_agent" && productAgent
        && iteration_counts.product_agent_calls < 3 && gate)
      rp3 iteration_counts
  let rp4 := productStep.1
  let counts4 := productStep.2.1
  let trace4 := productStep.2.2
  let insuranceStep :=
    agent_insurance_block env
      (! has_non_system_specialist_response rp4.specialist_responses && eff = INSURANCE_ROUTE
        && insuranceAgent && counts4.insurance_agent_calls < 3)
      rp4 conversation_history counts4
  { result := insuranceStep.1,
    packetStateFinal := state_from_packet,
    counts := insuranceStep.2.1,
    trace := trace4 ++ insuranceStep.2.2,
    resolvedRouting := eff,
    gateAllowed := gate }

def orchestrateAgentPath (env : CallEnv) (packet : Packet) (parsed : ParsedOrch)
    (productAgent insuranceAgent : Bool) (conversation_history : List HistMsg)
    (iteration_counts : Counts) : OrchOut :=
  agent_after_build env (packetState packet)
    (build_agent_result_payload env.tryPrettyJson parsed (packetState packet))
    productAgent insuranceAgent conversation_history iteration_counts

/-- The product-specialist block of the deterministic path (lines
1006-1054); `run` is the condition of line 1006. -/
def fallback_product_block (env : CallEnv) (run : Bool) (iteration_counts : Counts) :
    List Entry × Counts × List SpecCall :=
  if run then
    if iteration_counts.product_agent_calls ≥ 3 then
      ([productCapEntry], iteration_counts, ([] : List SpecCall))
    else
      match env.productResponse with
      | Except.ok prod_response =>
        let formatted := format_specialist_response env.tryPrettyJson prod_response
        let formatted := if formatted = "" then productPlaceholderText else formatted
        ([productEntry formatted prod_response],
         { iteration_counts with product_agent_calls := iteration_counts.product_agent_calls + 1 },
         [SpecCall.productCall])
      | Except.error ex =>
        ([productUnavailableEntry ex], iteration_counts, [SpecCall.productCall])
  else ([], iteration_counts, [])

/-- The insurance-specialist block of the deterministic path (lines
1056-1106); `run` is the condition of line 1056.  Note the context
validation comes before the iteration-cap test here. -/
def fallback_insurance_block (env : CallEnv) (run : Bool) (state1 : StateD)
    (conversation_history : List HistMsg) (countsP : Counts) :
    List Entry × Counts × List SpecCall :=
  if run then
    match validate_insurance_context env.jsonParse state1 conversation_history with
    | (false, error_msg) =>
      ([cannotRouteInsuranceEntry error_msg], countsP, ([] : List SpecCall))
    | (true, _) =>
      if countsP.insurance_agent_calls ≥ 3 then ([insuranceCapEntry], countsP, [])
      else
        match env.insuranceResponse with
        | Except.ok insurance_response =>
          ([insuranceEntry (format_specialist_response env.tryPrettyJson insurance_response) insurance_response],
           { countsP with insurance_agent_calls := countsP.insurance_agent_calls + 1 },
           [SpecCall.insuranceCall])
        | Except.error ex =>
          ([insuranceUnavailableEntry ex], countsP, [SpecCall.insuranceCall])
  else ([], countsP, [])

/-- The routing resolution of the deterministic path (lines 949-989):
normalize the packet's routing hint and, when it is `none`, re-derive the
route from explicit keywords in the latest user input and the draft text and
from the state fields. -/
def fallback_resolve_routing (packet : Packet) (conversation_history : List HistMsg) : String :=
  let state0 := packetState packet
  let routing_context := packet.routing_context.getD {}
  let conversation := packet.conversation.getD {}
  let intake := packet.intake.getD {}
  let routing0 := normalize_route_name (routing_context.routing_hint.getD "none")
  let user_input := conversation.latest_user_input.getD ""
  let base_text := intake.customer_visible_draft.getD ""
  let response_lower := pyLower base_text
  let user_input_lower := pyLower user_input
  let explicit_product_escalation := has_customer_confirmed_specialist_routing conversation_history
  if routing0 = "none" then
    let explicit_product_request :=
      productRequestTerms.any (fun t => strContains user_input_lower t)
    if explicit_product_request || explicit_product_escalation then "product_agent"
    else
      let product_status := state0.product_status.getD "collecting"
      let overall_status := state0.overall_status.getD "intake"
      if overall_status ≠ "intake"
          && (product_status = "searching" || product_status = "proposed")
          && validate_product_context conversation_history
          && (["product specialist", "external catalog"].any (fun kw => strContains response_lower kw)) then
        "product_agent"
      else if product_status = "agreed"
          && (["insurance specialist", "insurance offer"].any (fun kw => strContains response_lower kw)) then
        INSURANCE_ROUTE
      else "none"
  else routing0

/-- The deterministic path after routing resolution (lines 991-1127):
`state0` is the packet's state dict, `routing1` the resolved routing, and
`base_text` the customer-visible draft. -/
def fallback_after_routing (env : CallEnv) (state0 : StateD) (routing1 : String)
    (base_text : String) (productAgent insuranceAgent : Bool)
    (conversation_history : List HistMsg) (iteration_counts : Counts) : OrchOut :=
  let invAndState :=
    let inv0 : Option Inv :=
      if state0.inventory_checked then some (build_inventory_check_payload state0 true) else none
    if routing1 = "product_agent" && inv0.isNone then
      (some (build_inventory_check_payload state0 (! state0.inventory_checked)),
       { state0 with inventory_checked := true })
    else (inv0, state0)
  let inventory_check_result := invAndState.1
  let state1 := invAndState.2
  let gate := has_failed_internal_option_agreement state1 inventory_check_result conversation_history
  let routing2 := if routing1 = "product_agent" && ! gate then "none" else routing1
  let productStep := fallback_product_block env (routing2 = "product_agent" && productAgent) iteration_counts
  let entriesP := productStep.1
  let countsP := productStep.2.1
  let traceP := productStep.2.2
  let insuranceStep :=
    fallback_insurance_block env (routing2 = INSURANCE_ROUTE && insuranceAgent) state1
      conversation_history countsP
  let specialist_responses := entriesP ++ insuranceStep.1
  let result0 : ResultPayload :=
    { state := state1, routing := routing2, inventory_check := inventory_check_result,
      specialist_responses := specialist_responses,
      customer_response := build_user_summary base_text specialist_responses }
  let should_require_inventory :=
    pyLower result0.routing = "product_agent"
      || has_product_specialist_response result0.specialist_responses
  let result1 := ensure_inventory_check_payload result0 should_require_inventory
  { result := result1,
    packetStateFinal := result1.state,
    counts := insuranceStep.2.1,
    trace := traceP ++ insuranceStep.2.2,
    resolvedRouting := routing1,
    gateAllowed := gate }

/-- The deterministic fallback path of `orchestrate_customer_packet` (lines
935-1127): resolve the routing from the packet, then run the gated blocks.
The packet's state dict is aliased by the result (it is mutated in place at
lines 998-999), which the model captures by returning the final state value
as `packetStateFinal`. -/
def orchestrateFallbackPath (env : CallEnv) (packet : Packet)
    (productAgent insuranceAgent : Bool) (conversation_history : List HistMsg)
    (iteration_counts : Counts) : OrchOut :=
  fallback_after_routing env (packetState packet)
    (fallback_resolve_routing packet conversation_history)
    ((packet.intake.getD {}).customer_visible_draft.getD "")
    productAgent insuranceAgent conversation_history iteration_counts

/-- `orchestrate_customer_packet` (lines 741-1127).  The opaque round trip
`get_orchestrator_response` → `_extract_json_dict` →
`_is_valid_orchestrator_result` is an input: `some parsed` is a reply that
validated (the agent and client are then necessarily configured), `none`
covers every other case — no agent configured, the call raised, the reply
did not parse, or it failed validation — all of which reach the
deterministic fallback at line 935. -/
def orchestrate_customer_packet (env : CallEnv) (packet : Packet)
    (orchestratorReply : Option ParsedOrch) (productAgent insuranceAgent : Bool)
    (conversation_history : List HistMsg) (iteration_counts : Counts) : OrchOut :=
  match orchestratorReply with
  | some parsed =>
    orchestrateAgentPath env packet parsed productAgent insuranceAgent
      conversation_history iteration_counts
  | none =>
    orchestrateFallbackPath env packet productAgent insuranceAgent
      conversation_history iteration_counts

/-- A concrete environment for evaluating the model at specific inputs: the
JSON oracles decline to parse (as they do on non-JSON text) and both
specialists answer. -/
def probeEnv : CallEnv :=
  { tryPrettyJson := fun _ => none, jsonParse := fun _ => none,
    productResponse := Except.ok "specialist reply",
    insuranceResponse := Except.ok "specialist reply" }

/-! ## Helper lemmas -/

theorem normalize_none_imf (state : StateD) :
    (normalize_inventory_check_payload none state).internal_match_found = some true := rfl

theorem normalize_none_options_len (state : StateD) :
    (normalize_inventory_check_payload none state).internal_options.length = 1 := rfl

theorem normalize_explicit_imf (inv : Inv) (state : StateD) (b : Bool)
    (hmf : inv.internal_match_found = some b) :
    (normalize_inventory_check_payload (some inv) state).internal_match_found = some b := by
  simp only [normalize_inventory_check_payload, hmf]

theorem imf_derived_ne_false_core (o2 : List IOpt) (di : Bool) :
    (if o2 ≠ [] then some true else if di = true then some true else (none : Option Bool)) ≠ some false := by
  by_cases h1 : o2 = [] <;> cases di <;> simp [h1]

theorem imf_true_options_core (o1 : List IOpt) (di : Bool)
    (h : (if (if (decide (o1 = []) && di) = true then default_internal_model_options else o1) ≠ [] then some true
          else if di = true then some true else (none : Option Bool)) = some true) :
    (if (decide (o1 = []) && di) = true then default_internal_model_options else o1) ≠ [] := by
  by_cases h1 : o1 = [] <;> cases di <;>
    simp_all [default_internal_model_options]

theorem normalize_derived_true_options (inv : Inv) (state : StateD)
    (hmf : inv.internal_match_found = none)
    (h : (normalize_inventory_check_payload (some inv) state).internal_match_found = some true) :
    (normalize_inventory_check_payload (some inv) state).internal_options ≠ [] := by
  simp only [normalize_inventory_check_payload, hmf] at h ⊢
  exact imf_true_options_core _ _ h

theorem normalize_reason_nonempty (raw : Option Inv) (state : StateD)
    (h : (normalize_inventory_check_payload raw state).internal_match_found = some false) :
    (normalize_inventory_check_payload raw state).no_match_reason.getD "" ≠ "" := by
  rcases raw with _ | inv
  · rw [normalize_none_imf] at h
    exact absurd h (by decide)
  · rcases hmf : inv.internal_match_found with _ | b
    · exfalso
      simp only [normalize_inventory_check_payload, hmf] at h
      exact absurd h (imf_derived_ne_false_core _ _)
    · have hb : b = false := by
        have e := normalize_explicit_imf inv state b hmf
        rw [e] at h
        exact Option.some.inj h
      subst hb
      simp only [normalize_inventory_check_payload, hmf]
      rcases inv.no_match_reason with _ | r
      · simp [defaultNoMatchReason]
      · by_cases hr : r = "" <;> simp [hr, defaultNoMatchReason]

theorem ensure_inventory_routing (p : ResultPayload) (r : Bool) :
    (ensure_inventory_check_payload p r).routing = p.routing := by
  simp only [ensure_inventory_check_payload]
  repeat' split
  all_goals rfl

theorem ensure_inventory_entries (p : ResultPayload) (r : Bool) :
    (ensure_inventory_check_payload p r).specialist_responses = p.specialist_responses := by
  simp only [ensure_inventory_check_payload]
  repeat' split
  all_goals rfl

theorem ensure_inventory_state_cases (p : ResultPayload) (r : Bool) :
    (ensure_inventory_check_payload p r).state = p.state ∨
      (ensure_inventory_check_payload p r).state = { p.state with inventory_checked := true } := by
  simp only [ensure_inventory_check_payload]
  repeat' split
  all_goals first | exact Or.inl rfl | exact Or.inr rfl

theorem ensure_inventory_product_status (p : ResultPayload) (r : Bool) :
    (ensure_inventory_check_payload p r).state.product_status = p.state.product_status := by
  rcases ensure_inventory_state_cases p r with h | h <;> rw [h]

theorem validate_true_iff (jp : String → Option JsonBlob) (st : StateD) (h : List HistMsg) :
    (validate_insurance_context jp st h).1 = true ↔
      (st.product_status = some "agreed" ∧ (extract_requirements h).budget.isSome ∧
        (extract_product_details jp h).product_model.isSome) := by
  unfold validate_insurance_context
  by_cases h1 : st.product_status = some "agreed"
  · by_cases h2 : (extract_requirements h).budget = none
    · simp [h1, h2, Option.isNone_iff_eq_none, Option.isSome_iff_ne_none]
    · by_cases h3 : (extract_product_details jp h).product_model = none
      · simp [h1, h2, h3, Option.isNone_iff_eq_none, Option.isSome_iff_ne_none]
      · simp [h1, h2, h3, Option.isNone_iff_eq_none, Option.isSome_iff_ne_none]
  · simp [h1]

theorem fallback_product_block_not_run (env : CallEnv) (c : Counts) :
    fallback_product_block env false c = ([], c, []) := rfl

theorem fallback_insurance_block_not_run (env : CallEnv) (st : StateD)
    (hist : List HistMsg) (c : Counts) :
    fallback_insurance_block env false st hist c = ([], c, []) := rfl

theorem agent_product_block_not_run (env : CallEnv) (rp : ResultPayload) (c : Counts) :
    agent_product_block env false rp c = (rp, c, []) := rfl

theorem agent_insurance_block_not_run (env : CallEnv) (rp : ResultPayload)
    (hist : List HistMsg) (c : Counts) :
    agent_insurance_block env false rp hist c = (rp, c, []) := rfl

theorem fallback_product_block_trace (env : CallEnv) (run : Bool) (c : Counts) :
    (fallback_product_block env run c).2.2 = [] ∨
      (fallback_product_block env run c).2.2 = [SpecCall.productCall] := by
  unfold fallback_product_block
  repeat' split
  all_goals simp

theorem fallback_product_block_no_insurance (env : CallEnv) (run : Bool) (c : Counts) :
    SpecCall.insuranceCall ∉ (fallback_product_block env run c).2.2 := by
  rcases fallback_product_block_trace env run c with h | h <;> rw [h] <;> simp

theorem fallback_product_block_cap (env : CallEnv) (c : Counts)
    (h : c.product_agent_calls ≥ 3) :
    fallback_product_block env true c = ([productCapEntry], c, []) := by
  unfold fallback_product_block
  simp [h]

theorem fallback_insurance_block_trace (env : CallEnv) (run : Bool) (st : StateD)
    (hist : List HistMsg) (c : Counts) :
    (fallback_insurance_block env run st hist c).2.2 = [] ∨
      (fallback_insurance_block env run st hist c).2.2 = [SpecCall.insuranceCall] := by
  unfold fallback_insurance_block
  repeat' split
  all_goals simp

theorem fallback_insurance_block_no_product (env : CallEnv) (run : Bool) (st : StateD)
    (hist : List HistMsg) (c : Counts) :
    SpecCall.productCall ∉ (fallback_insurance_block env run st hist c).2.2 := by
  rcases fallback_insurance_block_trace env run st hist c with h | h <;> rw [h] <;> simp

theorem fallback_insurance_block_call_validate (env : CallEnv) (run : Bool) (st : StateD)
    (hist : List HistMsg) (c : Counts)
    (hmem : SpecCall.insuranceCall ∈ (fallback_insurance_block env run st hist c).2.2) :
    (validate_insurance_context env.jsonParse st hist).1 = true := by
  unfold fallback_insurance_block at hmem
  repeat' split at hmem
  all_goals simp_all

theorem fallback_insurance_block_invalid (env : CallEnv) (st : StateD)
    (hist : List HistMsg) (c : Counts) (msg : Option String)
    (hv : validate_insurance_context env.jsonParse st hist = (false, msg)) :
    fallback_insurance_block env true st hist c = ([cannotRouteInsuranceEntry msg], c, []) := by
  unfold fallback_insurance_block
  simp [hv]

theorem validate_product_status_only (jp : String → Option JsonBlob) (st1 st2 : StateD)
    (h : st1.product_status = st2.product_status) (hist : List HistMsg) :
    validate_insurance_context jp st1 hist = validate_insurance_context jp st2 hist := by
  unfold validate_insurance_context
  rw [h]

theorem agent_insurance_block_invalid (env : CallEnv) (rp : ResultPayload)
    (hist : List HistMsg) (c : Counts) (msg : Option String)
    (hv : validate_insurance_context env.jsonParse rp.state hist = (false, msg)) :
    agent_insurance_block env true rp hist c =
      ({ rp with specialist_responses := rp.specialist_responses ++ [cannotRouteInsuranceEntry msg] },
       c, []) := by
  unfold agent_insurance_block
  simp [hv]

theorem agent_product_block_trace (env : CallEnv) (run : Bool) (rp : ResultPayload) (c : Counts) :
    (agent_product_block env run rp c).2.2 = [] ∨
      (agent_product_block env run rp c).2.2 = [SpecCall.productCall] := by
  unfold agent_product_block
  repeat' split
  all_goals simp

theorem agent_product_block_no_insurance (env : CallEnv) (run : Bool) (rp : ResultPayload) (c : Counts) :
    SpecCall.insuranceCall ∉ (agent_product_block env run rp c).2.2 := by
  rcases agent_product_block_trace env run rp c with h | h <;> rw [h] <;> simp

theorem agent_product_block_state (env : CallEnv) (run : Bool) (rp : ResultPayload) (c : Counts) :
    (agent_product_block env run rp c).1.state = rp.state := by
  unfold agent_product_block
  repeat' split
  all_goals rfl

theorem agent_insurance_block_trace (env : CallEnv) (run : Bool) (rp : ResultPayload)
    (hist : List HistMsg) (c : Counts) :
    (agent_insurance_block env run rp hist c).2.2 = [] ∨
      (agent_insurance_block env run rp hist c).2.2 = [SpecCall.insuranceCall] := by
  unfold agent_insurance_block
  repeat' split
  all_goals simp

theorem agent_insurance_block_no_product (env : CallEnv) (run : Bool) (rp : ResultPayload)
    (hist : List HistMsg) (c : Counts) :
    SpecCall.productCall ∉ (agent_insurance_block env run rp hist c).2.2 := by
  rcases agent_insurance_block_trace env run rp hist c with h | h <;> rw [h] <;> simp

theorem agent_insurance_block_call_validate (env : CallEnv) (run : Bool) (rp : ResultPayload)
    (hist : List HistMsg) (c : Counts)
    (hmem : SpecCall.insuranceCall ∈ (agent_insurance_block env run rp hist c).2.2) :
    (validate_insurance_context env.jsonParse rp.state hist).1 = true := by
  unfold agent_insurance_block at hmem
  repeat' split at hmem
  all_goals simp_all

theorem agent_insurance_block_product_status (env : CallEnv) (run : Bool) (rp : ResultPayload)
    (hist : List HistMsg) (c : Counts) :
    (agent_insurance_block env run rp hist c).1.state.product_status = rp.state.product_status := by
  unfold agent_insurance_block
  repeat' split
  all_goals first
    | rfl
    | (rw [ensure_inventory_product_status])

theorem agent_insurance_block_routing (env : CallEnv) (run : Bool) (rp : ResultPayload)
    (hist : List HistMsg) (c : Counts) :
    (agent_insurance_block env run rp hist c).1.routing = rp.routing := by
  unfold agent_insurance_block
  repeat' split
  all_goals first
    | rfl
    | (rw [ensure_inventory_routing])

theorem fallback_traces_combine (env : CallEnv) (r2 : String) (pa ia : Bool)
    (c : Counts) (st : StateD) (hist : List HistMsg) :
    (fallback_product_block env (r2 = "product_agent" && pa) c).2.2 ++
      (fallback_insurance_block env (r2 = INSURANCE_ROUTE && ia) st hist
        (fallback_product_block env (r2 = "product_agent" && pa) c).2.1).2.2 = [] ∨
    (fallback_product_block env (r2 = "product_agent" && pa) c).2.2 ++
      (fallback_insurance_block env (r2 = INSURANCE_ROUTE && ia) st hist
        (fallback_product_block env (r2 = "product_agent" && pa) c).2.1).2.2 = [SpecCall.productCall] ∨
    (fallback_product_block env (r2 = "product_agent" && pa) c).2.2 ++
      (fallback_insurance_block env (r2 = INSURANCE_ROUTE && ia) st hist
        (fallback_product_block env (r2 = "product_agent" && pa) c).2.1).2.2 = [SpecCall.insuranceCall] := by
  by_cases h : r2 = "product_agent"
  · have hne : ¬ (r2 = INSURANCE_ROUTE) := by rw [h]; decide
    rw [decide_eq_false hne]
    simp only [Bool.false_and, fallback_insurance_block_not_run, List.append_nil]
    rcases fallback_product_block_trace env (r2 = "product_agent" && pa) c with h2 | h2 <;> simp [h2]
  · rw [decide_eq_false h]
    simp only [Bool.false_and, fallback_product_block_not_run, List.nil_append]
    rcases fallback_insurance_block_trace env (r2 = INSURANCE_ROUTE && ia) st hist c with h2 | h2 <;>
      simp [h2]

theorem agent_traces_combine (env : CallEnv) (eff : String) (x1 x2 x3 x4 ia : Bool)
    (rp3 : ResultPayload) (c : Counts) (hist : List HistMsg) :
    (agent_product_block env (x1 && eff = "product_agent" && x2 && x3 && x4) rp3 c).2.2 ++
      (agent_insurance_block env
        (! has_non_system_specialist_response
            (agent_product_block env (x1 && eff = "product_agent" && x2 && x3 && x4) rp3 c).1.specialist_responses
          && eff = INSURANCE_ROUTE && ia
          && (agent_product_block env (x1 && eff = "product_agent" && x2 && x3 && x4) rp3 c).2.1.insurance_agent_calls < 3)
        (agent_product_block env (x1 && eff = "product_agent" && x2 && x3 && x4) rp3 c).1 hist
        (agent_product_block env (x1 && eff = "product_agent" && x2 && x3 && x4) rp3 c).2.1).2.2 = [] ∨
    (agent_product_block env (x1 && eff = "product_agent" && x2 && x3 && x4) rp3 c).2.2 ++
      (agent_insurance_block env
        (! has_non_system_specialist_response
            (agent_product_block env (x1 && eff = "product_agent" && x2 && x3 && x4) rp3 c).1.specialist_responses
          && eff = INSURANCE_ROUTE && ia
          && (agent_product_block env (x1 && eff = "product_agent" && x2 && x3 && x4) rp3 c).2.1.insurance_agent_calls < 3)
        (agent_product_block env (x1 && eff = "product_agent" && x2 && x3 && x4) rp3 c).1 hist
        (agent_product_block env (x1 && eff = "product_agent" && x2 && x3 && x4) rp3 c).2.1).2.2 = [SpecCall.productCall] ∨
    (agent_product_block env (x1 && eff = "product_agent" && x2 && x3 && x4) rp3 c).2.2 ++
      (agent_insurance_block env
        (! has_non_system_specialist_response
            (agent_product_block env (x1 && eff = "product_agent" && x2 && x3 && x4) rp3 c).1.specialist_responses
          && eff = INSURANCE_ROUTE && ia
          && (agent_product_block env (x1 && eff = "product_agent" && x2 && x3 && x4) rp3 c).2.1.insurance_agent_calls < 3)
        (agent_product_block env (x1 && eff = "product_agent" && x2 && x3 && x4) rp3 c).1 hist
        (agent_product_block env (x1 && eff = "product_agent" && x2 && x3 && x4) rp3 c).2.1).2.2 = [SpecCall.insuranceCall] := by
  by_cases h : eff = "product_agent"
  · have hne : ¬ (eff = INSURANCE_ROUTE) := by rw [h]; decide
    rw [decide_eq_false hne]
    simp only [Bool.and_false, Bool.false_and, agent_insurance_block_not_run, List.append_nil]
    rcases agent_product_block_trace env (x1 && eff = "product_agent" && x2 && x3 && x4) rp3 c with h2 | h2 <;>
      simp [h2]
  · rw [decide_eq_false h]
    simp only [Bool.and_false, Bool.false_and, agent_product_block_not_run, List.nil_append]
    rcases agent_insurance_block_trace env
      (! has_non_system_specialist_response rp3.specialist_responses && eff = INSURANCE_ROUTE && ia
        && c.insurance_agent_calls < 3) rp3 hist c with h2 | h2 <;> simp [h2]

theorem ensure_state_cases2 (p : ResultPayload) (r : Bool) (s : StateD)
    (hp : p.state = s ∨ p.state = { s with inventory_checked := true }) :
    (ensure_inventory_check_payload p r).state = s ∨
      (ensure_inventory_check_payload p r).state = { s with inventory_checked := true } := by
  rcases ensure_inventory_state_cases p r with h | h <;> rcases hp with hp | hp
  · exact Or.inl (h.trans hp)
  · exact Or.inr (h.trans hp)
  · rw [h, hp]; exact Or.inr rfl
  · rw [h, hp]; exact Or.inr rfl

theorem if_pair_state_cases {α : Type} (c : Prop) [Decidable c] (a b : α) (s0 : StateD) :
    (if c then (a, { s0 with inventory_checked := true }) else (b, s0)).2 = s0 ∨
    (if c then (a, { s0 with inventory_checked := true }) else (b, s0)).2 =
      { s0 with inventory_checked := true } := by
  split
  · exact Or.inr rfl
  · exact Or.inl rfl

/-! ## Path-level lemmas -/

theorem fallback_after_routing_resolved (env : CallEnv) (s0 : StateD) (r1 bt : String)
    (pa ia : Bool) (hist : List HistMsg) (c : Counts) :
    (fallback_after_routing env s0 r1 bt pa ia hist c).resolvedRouting = r1 := rfl

theorem fallback_after_routing_trace (env : CallEnv) (s0 : StateD) (r1 bt : String)
    (pa ia : Bool) (hist : List HistMsg) (c : Counts) :
    (fallback_after_routing env s0 r1 bt pa ia hist c).trace = [] ∨
    (fallback_after_routing env s0 r1 bt pa ia hist c).trace = [SpecCall.productCall] ∨
    (fallback_after_routing env s0 r1 bt pa ia hist c).trace = [SpecCall.insuranceCall] := by
  unfold fallback_after_routing
  dsimp only
  exact fallback_traces_combine env _ pa ia c _ hist

theorem agent_after_build_trace (env : CallEnv) (s0 : StateD) (rp0 : ResultPayload)
    (pa ia : Bool) (hist : List HistMsg) (c : Counts) :
    (agent_after_build env s0 rp0 pa ia hist c).trace = [] ∨
    (agent_after_build env s0 rp0 pa ia hist c).trace = [SpecCall.productCall] ∨
    (agent_after_build env s0 rp0 pa ia hist c).trace = [SpecCall.insuranceCall] := by
  unfold agent_after_build
  dsimp only
  exact agent_traces_combine env _ _ pa _ _ ia _ c hist

theorem fallback_after_routing_state (env : CallEnv) (s0 : StateD) (r1 bt : String)
    (pa ia : Bool) (hist : List HistMsg) (c : Counts) :
    (fallback_after_routing env s0 r1 bt pa ia hist c).packetStateFinal = s0 ∨
    (fallback_after_routing env s0 r1 bt pa ia hist c).packetStateFinal =
      { s0 with inventory_checked := true } := by
  unfold fallback_after_routing
  dsimp only
  exact ensure_state_cases2 _ _ _ (if_pair_state_cases _ _ _ _)

theorem fallback_gate_blocks_product (env : CallEnv) (s0 : StateD) (bt : String)
    (pa ia : Bool) (hist : List HistMsg) (c : Counts)
    (hgate : (fallback_after_routing env s0 "product_agent" bt pa ia hist c).gateAllowed = false) :
    (fallback_after_routing env s0 "product_agent" bt pa ia hist c).result.routing = "none" ∧
      SpecCall.productCall ∉ (fallback_after_routing env s0 "product_agent" bt pa ia hist c).trace := by
  have hne1 : ("none" : String) ≠ "product_agent" := by decide
  have hne2 : ("none" : String) ≠ INSURANCE_ROUTE := by decide
  unfold fallback_after_routing at hgate ⊢
  dsimp only at hgate ⊢
  simp [decide_eq_false hne1, decide_eq_false hne2,
        fallback_product_block_not_run, fallback_insurance_block_not_run,
        ensure_inventory_routing] at hgate ⊢
  simp [hgate, decide_eq_false hne1, decide_eq_false hne2,
        fallback_product_block_not_run, fallback_insurance_block_not_run]

theorem agent_gate_blocks_product (env : CallEnv) (s0 : StateD) (rp0 : ResultPayload)
    (pa ia : Bool) (hist : List HistMsg) (c : Counts)
    (hroute : (agent_after_build env s0 rp0 pa ia hist c).resolvedRouting = "product_agent")
    (hgate : (agent_after_build env s0 rp0 pa ia hist c).gateAllowed = false) :
    (agent_after_build env s0 rp0 pa ia hist c).result.routing = "none" ∧
      SpecCall.productCall ∉ (agent_after_build env s0 rp0 pa ia hist c).trace := by
  have hne3 : ("product_agent" : String) ≠ INSURANCE_ROUTE := by decide
  unfold agent_after_build at hroute hgate ⊢
  dsimp only at hroute hgate ⊢
  simp only [hgate]
  simp only [hroute]
  simp [decide_eq_false hne3, agent_product_block_not_run, agent_insurance_block_not_run]

theorem fallback_capped_product (env : CallEnv) (s0 : StateD) (r1 bt : String)
    (ia : Bool) (hist : List HistMsg) (c : Counts)
    (hroute : (fallback_after_routing env s0 r1 bt true ia hist c).result.routing = "product_agent")
    (hcap : c.product_agent_calls ≥ 3) :
    (fallback_after_routing env s0 r1 bt true ia hist c).trace = [] ∧
    (fallback_after_routing env s0 r1 bt true ia hist c).counts = c ∧
    productCapEntry ∈ (fallback_after_routing env s0 r1 bt true ia hist c).result.specialist_responses := by
  have hne : ("product_agent" : String) ≠ INSURANCE_ROUTE := by decide
  unfold fallback_after_routing at hroute ⊢
  dsimp only at hroute ⊢
  rw [ensure_inventory_routing] at hroute
  dsimp only at hroute
  simp only [hroute]
  simp [decide_eq_false hne, fallback_product_block_cap env c hcap,
        fallback_insurance_block_not_run, ensure_inventory_entries]

theorem fallback_insurance_invalid_message (env : CallEnv) (s0 : StateD) (bt : String)
    (pa : Bool) (hist : List HistMsg) (c : Counts) (msg : Option String)
    (hval : validate_insurance_context env.jsonParse s0 hist = (false, msg)) :
    cannotRouteInsuranceEntry msg ∈
      (fallback_after_routing env s0 INSURANCE_ROUTE bt pa true hist c).result.specialist_responses ∧
    SpecCall.insuranceCall ∉ (fallback_after_routing env s0 INSURANCE_ROUTE bt pa true hist c).trace := by
  have hne : (INSURANCE_ROUTE : String) ≠ "product_agent" := by decide
  unfold fallback_after_routing
  dsimp only
  simp [decide_eq_false hne, fallback_product_block_not_run,
        fallback_insurance_block_invalid _ _ _ _ _ hval, ensure_inventory_entries]

theorem fallback_call_requires_context (env : CallEnv) (s0 : StateD) (r1 bt : String)
    (pa ia : Bool) (hist : List HistMsg) (c : Counts)
    (hmem : SpecCall.insuranceCall ∈ (fallback_after_routing env s0 r1 bt pa ia hist c).trace) :
    (fallback_after_routing env s0 r1 bt pa ia hist c).result.state.product_status = some "agreed" ∧
    (extract_requirements hist).budget.isSome ∧
    (extract_product_details env.jsonParse hist).product_model.isSome := by
  unfold fallback_after_routing at hmem ⊢
  dsimp only at hmem ⊢
  rw [List.mem_append] at hmem
  rcases hmem with hmem | hmem
  · exact absurd hmem (fallback_product_block_no_insurance _ _ _)
  · have hv := fallback_insurance_block_call_validate _ _ _ _ _ hmem
    rw [validate_true_iff] at hv
    rw [ensure_inventory_product_status]
    exact hv

theorem agent_call_requires_context (env : CallEnv) (s0 : StateD) (rp0 : ResultPayload)
    (pa ia : Bool) (hist : List HistMsg) (c : Counts)
    (hmem : SpecCall.insuranceCall ∈ (agent_after_build env s0 rp0 pa ia hist c).trace) :
    (agent_after_build env s0 rp0 pa ia hist c).result.state.product_status = some "agreed" ∧
    (extract_requirements hist).budget.isSome ∧
    (extract_product_details env.jsonParse hist).product_model.isSome := by
  unfold agent_after_build at hmem ⊢
  dsimp only at hmem ⊢
  rw [List.mem_append] at hmem
  rcases hmem with hmem | hmem
  · exact absurd hmem (agent_product_block_no_insurance _ _ _ _)
  · have hv := agent_insurance_block_call_validate _ _ _ _ _ hmem
    rw [validate_true_iff] at hv
    rw [agent_insurance_block_product_status]
    exact hv

theorem agent_insurance_invalid_message (env : CallEnv) (s0 : StateD) (rp0 : ResultPayload)
    (pa : Bool) (hist : List HistMsg) (c : Counts) (msg : Option String)
    (hroute : (agent_after_build env s0 rp0 pa true hist c).resolvedRouting = INSURANCE_ROUTE)
    (hns : has_non_system_specialist_response rp0.specialist_responses = false)
    (hcap : c.insurance_agent_calls < 3)
    (hval : validate_insurance_context env.jsonParse rp0.state hist = (false, msg)) :
    cannotRouteInsuranceEntry msg ∈
      (agent_after_build env s0 rp0 pa true hist c).result.specialist_responses ∧
    SpecCall.insuranceCall ∉ (agent_after_build env s0 rp0 pa true hist c).trace := by
  have hne : (INSURANCE_ROUTE : String) ≠ "product_agent" := by decide
  have hval2 : ∀ r : Bool, validate_insurance_context env.jsonParse
      (ensure_inventory_check_payload rp0 r).state hist = (false, msg) := by
    intro r
    rw [validate_product_status_only env.jsonParse _ rp0.state
      (ensure_inventory_product_status rp0 r) hist]
    exact hval
  have hns2 : ∀ r : Bool, has_non_system_specialist_response
      (ensure_inventory_check_payload rp0 r).specialist_responses = false := by
    intro r
    rw [ensure_inventory_entries]
    exact hns
  have hblock : ∀ r : Bool,
      agent_insurance_block env true (ensure_inventory_check_payload rp0 r) hist c =
        ({ ensure_inventory_check_payload rp0 r with
            specialist_responses := (ensure_inventory_check_payload rp0 r).specialist_responses
              ++ [cannotRouteInsuranceEntry msg] }, c, []) :=
    fun r => agent_insurance_block_invalid env (ensure_inventory_check_payload rp0 r) hist c msg (hval2 r)
  unfold agent_after_build at hroute ⊢
  dsimp only at hroute ⊢
  by_cases hesc : (has_customer_confirmed_specialist_routing hist && pa) = true
  · rw [if_pos hesc] at hroute
    have hne2 : ¬(("product_agent" : String) = INSURANCE_ROUTE) := by decide
    exact absurd hroute hne2
  · rw [if_neg hesc] at hroute ⊢
    dsimp only at hroute ⊢
    simp only [hroute]
    simp [decide_eq_false hne, agent_product_block_not_run, hns, hns2,
          decide_eq_true hcap, hblock, ensure_inventory_entries]

/-! ## Claim theorems -/

/-- C1: in every call of `orchestrate_customer_packet` (either path) in which
the resolved routing is `product_agent` but
`_has_failed_internal_option_agreement` is false at the gate, the returned
result has routing `"none"` and no product-specialist call is made. -/
theorem C1_product_routing_gated (env : CallEnv) (packet : Packet) (reply : Option ParsedOrch)
    (productAgent insuranceAgent : Bool) (hist : List HistMsg) (counts : Counts)
    (hroute : (orchestrate_customer_packet env packet reply productAgent insuranceAgent hist counts).resolvedRouting = "product_agent")
    (hgate : (orchestrate_customer_packet env packet reply productAgent insuranceAgent hist counts).gateAllowed = false) :
    (orchestrate_customer_packet env packet reply productAgent insuranceAgent hist counts).result.routing = "none" ∧
      SpecCall.productCall ∉ (orchestrate_customer_packet env packet reply productAgent insuranceAgent hist counts).trace := by
  cases reply with
  | none =>
    have hr : fallback_resolve_routing packet hist = "product_agent" := hroute
    rw [show orchestrate_customer_packet env packet none productAgent insuranceAgent hist counts =
          fallback_after_routing env (packetState packet) (fallback_resolve_routing packet hist)
            ((packet.intake.getD {}).customer_visible_draft.getD "") productAgent insuranceAgent hist counts
        from rfl, hr] at hgate ⊢
    exact fallback_gate_blocks_product env (packetState packet) _ productAgent insuranceAgent hist counts hgate
  | some parsed =>
    rw [show orchestrate_customer_packet env packet (some parsed) productAgent insuranceAgent hist counts =
          agent_after_build env (packetState packet)
            (build_agent_result_payload env.tryPrettyJson parsed (packetState packet))
            productAgent insuranceAgent hist counts
        from rfl] at hroute hgate ⊢
    exact agent_gate_blocks_product env (packetState packet) _ productAgent insuranceAgent hist counts hroute hgate

/-- Witness for C1: a packet whose routing hint is `product_agent` with
`inventory_checked = true` and an empty history (no confirmation phrase)
resolves to `product_agent`, the gate is false, and the call returns routing
`"none"` with no product call. -/
theorem C1_product_routing_gated_witness :
    (orchestrate_customer_packet probeEnv
        { routing_context := some { state := some { inventory_checked := true }, routing_hint := some "product_agent" } }
        none true false [] {}).result.routing = "none" ∧
      SpecCall.productCall ∉ (orchestrate_customer_packet probeEnv
        { routing_context := some { state := some { inventory_checked := true }, routing_hint := some "product_agent" } }
        none true false [] {}).trace :=
  C1_product_routing_gated probeEnv
    { routing_context := some { state := some { inventory_checked := true }, routing_hint := some "product_agent" } }
    none true false [] {} rfl rfl

/-- C2: the spec's scenario — latest user message "none of these internal
options work, show more options", `inventory_checked = true`, routing hint
`product_agent`, deterministic path with a configured product agent — should
keep routing `product_agent` and attempt a specialist call.  The code instead
resolves routing to `"none"` and performs no call, although its own (dead)
helper `_has_customer_rejected_internal_options` recognizes the message:
the inventory-first gate only consults
`_has_customer_confirmed_specialist_routing`, which has no rejection
phrases. -/
theorem C2_rejection_phrases_not_wired :
    has_customer_rejected_internal_options
        [{ role := some "user", content := some "none of these internal options work, show more options" }] = true ∧
    (orchestrate_customer_packet probeEnv
        { routing_context := some { state := some { inventory_checked := true }, routing_hint := some "product_agent" } }
        none true false
        [{ role := some "user", content := some "none of these internal options work, show more options" }]
        {}).resolvedRouting = "product_agent" ∧
    (orchestrate_customer_packet probeEnv
        { routing_context := some { state := some { inventory_checked := true }, routing_hint := some "product_agent" } }
        none true false
        [{ role := some "user", content := some "none of these internal options work, show more options" }]
        {}).result.routing = "none" ∧
    (orchestrate_customer_packet probeEnv
        { routing_context := some { state := some { inventory_checked := true }, routing_hint := some "product_agent" } }
        none true false
        [{ role := some "user", content := some "none of these internal options work, show more options" }]
        {}).trace = [] :=
  ⟨rfl, rfl, rfl, rfl⟩

/-- Counterexample for C3: a payload carrying an explicit
`internal_match_found = true`, an empty option list, and details that match
no option pattern is normalized with `internal_match_found = true` yet an
empty `internal_options` list — the claimed true-direction invariant fails
for explicitly asserted matches. -/
theorem C3_counterexample :
    (normalize_inventory_check_payload
        (some { internal_match_found := some true, details := some "x" }) {}).internal_match_found = some true ∧
      (normalize_inventory_check_payload
        (some { internal_match_found := some true, details := some "x" }) {}).internal_options = [] :=
  ⟨rfl, rfl⟩

/-- C3 (amended): for every payload and state, the normalized result with
`internal_match_found = false` has a non-empty `no_match_reason`; and
whenever the incoming payload did not itself assert `internal_match_found =
true` (so a resulting `true` was derived by the function), `internal_options`
is non-empty.  The original claim's true-direction fails only for an
explicit upstream `true` (see the counterexample). -/
theorem C3_invariant_amended (raw : Option Inv) (state : StateD) :
    ((normalize_inventory_check_payload raw state).internal_match_found = some false →
      (normalize_inventory_check_payload raw state).no_match_reason.getD "" ≠ "") ∧
    ((raw.getD {}).internal_match_found ≠ some true →
      (normalize_inventory_check_payload raw state).internal_match_found = some true →
      (normalize_inventory_check_payload raw state).internal_options ≠ []) := by
  constructor
  · exact normalize_reason_nonempty raw state
  · intro hne htrue
    rcases raw with _ | inv
    · intro hc
      have e := normalize_none_options_len state
      rw [hc] at e
      simp at e
    · rcases hmf : inv.internal_match_found with _ | b
      · exact normalize_derived_true_options inv state hmf htrue
      · cases b with
        | false =>
          exfalso
          have e := normalize_explicit_imf inv state false hmf
          rw [e] at htrue
          exact absurd htrue (by decide)
        | true => exact absurd hmf hne

/-- Witness for C3 (amended): an explicit-false payload is given the default
non-empty no-match reason, and a non-dict payload (whose synthesized check
derives `internal_match_found = true` from its default details) carries a
non-empty option list. -/
theorem C3_invariant_amended_witness :
    (normalize_inventory_check_payload
        (some { internal_match_found := some false, details := some "x" }) {}).no_match_reason.getD "" ≠ "" ∧
      (normalize_inventory_check_payload none {}).internal_options ≠ [] :=
  ⟨(C3_invariant_amended (some { internal_match_found := some false, details := some "x" }) {}).1 rfl,
   (C3_invariant_amended none {}).2 (by decide) rfl⟩

/-- Counterexample for C4: on the agent path with routing resolved to the
insurance specialist, a failing precondition (product not agreed), and a
non-System specialist entry already present in the parsed reply, the turn
performs no insurance call but also appends no System "Cannot route to
insurance specialist" entry — the insurance block is skipped silently, so the
only entry in the result is the pre-existing Product Specialist one. -/
theorem C4_counterexample :
    let parsed : ParsedOrch :=
      { state := { product_status := some "collecting", inventory_checked := true },
        routing := some "insurance_agent",
        specialist_responses := [{ agent := some "Product Specialist", raw_response := some "recs" }] }
    (orchestrate_customer_packet probeEnv {} (some parsed) false true [] {}).resolvedRouting = "insurance_agent" ∧
      (validate_insurance_context probeEnv.jsonParse
        (orchestrate_customer_packet probeEnv {} (some parsed) false true [] {}).result.state []).1 = false ∧
      (orchestrate_customer_packet probeEnv {} (some parsed) false true [] {}).trace = [] ∧
      ((orchestrate_customer_packet probeEnv {} (some parsed) false true [] {}).result.specialist_responses.map
        (fun e => e.agent)) = ["Product Specialist"] := by
  exact ⟨rfl, rfl, rfl, rfl⟩

/-- C4 (amended): whenever the insurance specialist is actually called (either
path), the result state's `product_status` is `"agreed"` and a budget and a
product model are extractable from the history.  Whenever the insurance block
is reached with a failing validation, the System cannot-route entry carrying
the reason is appended and no insurance call is made: on the deterministic
path this happens as soon as routing resolves to the insurance route with an
insurance agent configured; on the agent path the block's guard additionally
requires that no non-System specialist entry is already present and that the
insurance-call counter is below 3 — when that guard itself fails, the block
(and its cannot-route message) is skipped silently, which refutes the
original claim's unconditional message clause (see the counterexample). -/
theorem C4_insurance_preconditions_amended (env : CallEnv) (packet : Packet)
    (reply : Option ParsedOrch) (pa ia : Bool) (hist : List HistMsg) (counts : Counts) :
    (SpecCall.insuranceCall ∈ (orchestrate_customer_packet env packet reply pa ia hist counts).trace →
      (orchestrate_customer_packet env packet reply pa ia hist counts).result.state.product_status = some "agreed" ∧
      (extract_requirements hist).budget.isSome ∧
      (extract_product_details env.jsonParse hist).product_model.isSome) ∧
    (∀ msg, reply = none →
      (orchestrate_customer_packet env packet reply pa ia hist counts).resolvedRouting = INSURANCE_ROUTE →
      ia = true →
      validate_insurance_context env.jsonParse (packetState packet) hist = (false, msg) →
      cannotRouteInsuranceEntry msg ∈
        (orchestrate_customer_packet env packet reply pa ia hist counts).result.specialist_responses ∧
      SpecCall.insuranceCall ∉ (orchestrate_customer_packet env packet reply pa ia hist counts).trace) ∧
    (∀ parsed msg, reply = some parsed →
      (orchestrate_customer_packet env packet reply pa ia hist counts).resolvedRouting = INSURANCE_ROUTE →
      ia = true →
      has_non_system_specialist_response
        (build_agent_result_payload env.tryPrettyJson parsed (packetState packet)).specialist_responses = false →
      counts.insurance_agent_calls < 3 →
      validate_insurance_context env.jsonParse
        (build_agent_result_payload env.tryPrettyJson parsed (packetState packet)).state hist = (false, msg) →
      cannotRouteInsuranceEntry msg ∈
        (orchestrate_customer_packet env packet reply pa ia hist counts).result.specialist_responses ∧
      SpecCall.insuranceCall ∉ (orchestrate_customer_packet env packet reply pa ia hist counts).trace) := by
  refine ⟨?_, ?_, ?_⟩
  · intro hmem
    cases reply with
    | none =>
      rw [show orchestrate_customer_packet env packet none pa ia hist counts =
            fallback_after_routing env (packetState packet) (fallback_resolve_routing packet hist)
              ((packet.intake.getD {}).customer_visible_draft.getD "") pa ia hist counts
          from rfl] at hmem ⊢
      exact fallback_call_requires_context env (packetState packet) _ _ pa ia hist counts hmem
    | some parsed =>
      rw [show orchestrate_customer_packet env packet (some parsed) pa ia hist counts =
            agent_after_build env (packetState packet)
              (build_agent_result_payload env.tryPrettyJson parsed (packetState packet))
              pa ia hist counts
          from rfl] at hmem ⊢
      exact agent_call_requires_context env (packetState packet) _ pa ia hist counts hmem
  · intro msg hnone hroute hia hval
    subst hnone
    subst hia
    have hr : fallback_resolve_routing packet hist = INSURANCE_ROUTE := hroute
    rw [show orchestrate_customer_packet env packet none pa true hist counts =
          fallback_after_routing env (packetState packet) (fallback_resolve_routing packet hist)
            ((packet.intake.getD {}).customer_visible_draft.getD "") pa true hist counts from rfl, hr]
    exact fallback_insurance_invalid_message env (packetState packet) _ pa hist counts msg hval
  · intro parsed msg hsome hroute hia hns hcap hval
    subst hsome
    subst hia
    rw [show orchestrate_customer_packet env packet (some parsed) pa true hist counts =
          agent_after_build env (packetState packet)
            (build_agent_result_payload env.tryPrettyJson parsed (packetState packet))
            pa true hist counts from rfl] at hroute ⊢
    exact agent_insurance_invalid_message env (packetState packet) _ pa hist counts msg hroute hns hcap hval

/-- Witness for C4 (amended): a deterministic turn whose routing hint names
the insurance specialist but whose state has no agreed product yields the
cannot-route entry with the product-not-agreed reason and no insurance call;
and an agent-path turn whose parsed reply routes to insurance with no
pre-existing specialist entries and an unmet product-agreed precondition
likewise appends the cannot-route entry and makes no call. -/
theorem C4_insurance_preconditions_amended_witness :
    (cannotRouteInsuranceEntry (some "Product not yet agreed - cannot offer insurance") ∈
      (orchestrate_customer_packet probeEnv
        { routing_context := some { routing_hint := some "insurance_agent" } }
        none false true [] {}).result.specialist_responses ∧
      SpecCall.insuranceCall ∉ (orchestrate_customer_packet probeEnv
        { routing_context := some { routing_hint := some "insurance_agent" } }
        none false true [] {}).trace) ∧
    (cannotRouteInsuranceEntry (some "Product not yet agreed - cannot offer insurance") ∈
      (orchestrate_customer_packet probeEnv {}
        (some { state := { product_status := some "collecting", inventory_checked := true },
                routing := some "insurance_agent" })
        false true [] {}).result.specialist_responses ∧
      SpecCall.insuranceCall ∉ (orchestrate_customer_packet probeEnv {}
        (some { state := { product_status := some "collecting", inventory_checked := true },
                routing := some "insurance_agent" })
        false true [] {}).trace) :=
  ⟨(C4_insurance_preconditions_amended probeEnv
      { routing_context := some { routing_hint := some "insurance_agent" } }
      none false true [] {}).2.1 (some "Product not yet agreed - cannot offer insurance") rfl rfl rfl rfl,
   (C4_insurance_preconditions_amended probeEnv {}
      (some { state := { product_status := some "collecting", inventory_checked := true },
              routing := some "insurance_agent" })
      false true [] {}).2.2
     { state := { product_status := some "collecting", inventory_checked := true },
       routing := some "insurance_agent" }
     (some "Product not yet agreed - cannot offer insurance") rfl rfl rfl rfl (by decide) rfl⟩

/-- Counterexample for C5: on the agent path with resolved routing
`product_agent`, a configured product agent, the gate open, and the counter
already at 3, the product block is skipped silently: no call, no cap entry,
counter unchanged — the claimed System cap message is absent. -/
theorem C5_counterexample :
    let parsed : ParsedOrch :=
      { state := { routing := some "product_agent", inventory_checked := true },
        routing := some "product_agent" }
    let hist : List HistMsg := [{ role := some "user", content := some "yes, route to specialist" }]
    (orchestrate_customer_packet probeEnv {} (some parsed) true false hist
      { product_agent_calls := 3 }).resolvedRouting = "product_agent" ∧
      (orchestrate_customer_packet probeEnv {} (some parsed) true false hist
        { product_agent_calls := 3 }).gateAllowed = true ∧
      (orchestrate_customer_packet probeEnv {} (some parsed) true false hist
        { product_agent_calls := 3 }).trace = [] ∧
      (orchestrate_customer_packet probeEnv {} (some parsed) true false hist
        { product_agent_calls := 3 }).counts = { product_agent_calls := 3, insurance_agent_calls := 0 } ∧
      (orchestrate_customer_packet probeEnv {} (some parsed) true false hist
        { product_agent_calls := 3 }).result.specialist_responses = [] := by
  exact ⟨rfl, rfl, rfl, rfl, rfl⟩

/-- C5 (amended): on the deterministic path (no orchestrator reply) with a
configured product agent, if the returned routing is `product_agent` and the
product-call counter is already at least 3, then no specialist call is made,
the counters are unchanged, and the System cap entry is appended.  The
original claim also covered the agent path, where the capped call is skipped
with no cap entry (see the counterexample). -/
theorem C5_iteration_cap_amended (env : CallEnv) (packet : Packet) (ia : Bool)
    (hist : List HistMsg) (counts : Counts)
    (hroute : (orchestrate_customer_packet env packet none true ia hist counts).result.routing = "product_agent")
    (hcap : counts.product_agent_calls ≥ 3) :
    (orchestrate_customer_packet env packet none true ia hist counts).trace = [] ∧
      (orchestrate_customer_packet env packet none true ia hist counts).counts = counts ∧
      productCapEntry ∈
        (orchestrate_customer_packet env packet none true ia hist counts).result.specialist_responses := by
  rw [show orchestrate_customer_packet env packet none true ia hist counts =
        fallback_after_routing env (packetState packet) (fallback_resolve_routing packet hist)
          ((packet.intake.getD {}).customer_visible_draft.getD "") true ia hist counts from rfl] at hroute ⊢
  exact fallback_capped_product env (packetState packet) _ _ ia hist counts hroute hcap

/-- Witness for C5 (amended): a deterministic turn with routing hint
`product_agent`, inventory already checked, an escalating user message, and a
counter at 3 keeps routing `product_agent`, performs no call, leaves the
counter at 3, and appends the cap entry. -/
theorem C5_iteration_cap_amended_witness :
    (orchestrate_customer_packet probeEnv
        { routing_context := some { state := some { inventory_checked := true }, routing_hint := some "product_agent" } }
        none true false [{ role := some "user", content := some "yes, route to specialist" }]
        { product_agent_calls := 3 }).trace = [] ∧
      (orchestrate_customer_packet probeEnv
        { routing_context := some { state := some { inventory_checked := true }, routing_hint := some "product_agent" } }
        none true false [{ role := some "user", content := some "yes, route to specialist" }]
        { product_agent_calls := 3 }).counts = { product_agent_calls := 3 } ∧
      productCapEntry ∈
        (orchestrate_customer_packet probeEnv
          { routing_context := some { state := some { inventory_checked := true }, routing_hint := some "product_agent" } }
          none true false [{ role := some "user", content := some "yes, route to specialist" }]
          { product_agent_calls := 3 }).result.specialist_responses :=
  C5_iteration_cap_amended probeEnv
    { routing_context := some { state := some { inventory_checked := true }, routing_hint := some "product_agent" } }
    false [{ role := some "user", content := some "yes, route to specialist" }]
    { product_agent_calls := 3 } rfl (by decide)

/-- Counterexample for C6: on the deterministic path, a packet whose state has
`inventory_checked = false` but whose routing hint is `product_agent` has its
nested state mutated in place — after the call the packet's state carries
`inventory_checked = true`. -/
theorem C6_counterexample :
    (packetState { routing_context := some { state := some {}, routing_hint := some "product_agent" } }).inventory_checked = false ∧
      (orchestrate_customer_packet probeEnv
        { routing_context := some { state := some {}, routing_hint := some "product_agent" } }
        none true false [] {}).packetStateFinal.inventory_checked = true := by
  exact ⟨rfl, rfl⟩

/-- C6 (amended): the nested ConversationState of the packet is either left
untouched or changed only by setting `inventory_checked` to true (the line
998-999 in-place write on the deterministic path); on the agent path the
packet is never mutated. -/
theorem C6_packet_immutability_amended (env : CallEnv) (packet : Packet)
    (reply : Option ParsedOrch) (pa ia : Bool) (hist : List HistMsg) (counts : Counts) :
    ((orchestrate_customer_packet env packet reply pa ia hist counts).packetStateFinal = packetState packet ∨
      (orchestrate_customer_packet env packet reply pa ia hist counts).packetStateFinal =
        { packetState packet with inventory_checked := true }) ∧
    (∀ parsed, reply = some parsed →
      (orchestrate_customer_packet env packet reply pa ia hist counts).packetStateFinal = packetState packet) := by
  constructor
  · cases reply with
    | none => exact fallback_after_routing_state env (packetState packet) _ _ pa ia hist counts
    | some parsed => exact Or.inl rfl
  · intro parsed hsome
    subst hsome
    rfl

/-- Witness for C6 (amended): an agent-path turn leaves the packet state
untouched. -/
theorem C6_packet_immutability_amended_witness :
    (orchestrate_customer_packet probeEnv {} (some {}) true true [] {}).packetStateFinal = packetState {} :=
  (C6_packet_immutability_amended probeEnv {} (some {}) true true [] {}).2 {} rfl

/-- C7: in any single invocation, at most one specialist is consulted — the
call trace is empty, exactly one product call, or exactly one insurance
call. -/
theorem C7_at_most_one_specialist_call (env : CallEnv) (packet : Packet)
    (reply : Option ParsedOrch) (pa ia : Bool) (hist : List HistMsg) (counts : Counts) :
    (orchestrate_customer_packet env packet reply pa ia hist counts).trace = [] ∨
      (orchestrate_customer_packet env packet reply pa ia hist counts).trace = [SpecCall.productCall] ∨
      (orchestrate_customer_packet env packet reply pa ia hist counts).trace = [SpecCall.insuranceCall] := by
  cases reply with
  | none => exact fallback_after_routing_trace env (packetState packet) _ _ pa ia hist counts
  | some parsed => exact agent_after_build_trace env (packetState packet) _ pa ia hist counts

/-- C8: the euro alternative in the budget regex is the mojibake byte
sequence for € (its UTF-8 bytes read back as Latin-1/Windows-1252), so a
message containing a real € sign yields no budget while the "1000 EUR",
"$1000", and thousands-separator forms do match; the empty history returns
the all-empty record. -/
theorem C8_budget_euro_mojibake :
    (extract_requirements [{ content := some "I want it for €1000" }]).budget = none ∧
      (extract_requirements [{ content := some "I need a fridge around 1000 EUR" }]).budget = some "1000 eur" ∧
      (extract_requirements [{ content := some "budget $1000 thanks" }]).budget = some "$1000" ∧
      (extract_requirements [{ content := some "roughly 1,000 eur altogether" }]).budget = some "1,000 eur" ∧
      extract_requirements [] = {} :=
  ⟨rfl, rfl, rfl, rfl, rfl⟩

/-- Counterexample for C9: with an empty base text and no specialist entries,
`_build_user_summary` returns the empty string, not the fixed non-empty
generic acknowledgment the claim promises for the nothing-at-all case. -/
theorem C9_counterexample : build_user_summary "" [] = "" := rfl

/-- C9 (amended): the precedence of `_build_user_summary` with the two
corrections — the base text wins after stripping (it is not returned
unchanged), and with no entries the (possibly empty) stripped base text is
returned, so the nothing-at-all case yields the empty string; among
System-only entries the first non-empty stripped response is surfaced, with
the generic acknowledgment reserved for all-blank System responses. -/
theorem C9_summary_precedence_amended (bt : String) (entries : List Entry) :
    (pyStrip bt ≠ "" → build_user_summary bt entries = pyStrip bt) ∧
    (pyStrip bt = "" → entries = [] → build_user_summary bt entries = "") ∧
    (pyStrip bt = "" → (∃ e ∈ entries, pyStrip e.agent ≠ "System") →
      build_user_summary bt entries = "I checked with our specialists and shared their responses below.") ∧
    (pyStrip bt = "" → entries ≠ [] → (∀ e ∈ entries, pyStrip e.agent = "System") →
      build_user_summary bt entries =
        ((entries.map (fun e => pyStrip e.response)).find? (fun m => m ≠ "")).getD
          "I reviewed your request and prepared an update.") := by
  refine ⟨?_, ?_, ?_, ?_⟩
  · intro h
    by_cases he : entries = [] <;> simp [build_user_summary, he, h]
  · intro h he
    simp [build_user_summary, he, h]
  · intro h hex
    obtain ⟨e, hmem, hne⟩ := hex
    have hne' : entries ≠ [] := by
      intro hnil
      rw [hnil] at hmem
      cases hmem
    have hf : entries.filter (fun item => pyStrip item.agent ≠ "System") ≠ [] := by
      intro hnil
      have hin : e ∈ entries.filter (fun item => pyStrip item.agent ≠ "System") :=
        List.mem_filter.mpr ⟨hmem, by simpa using hne⟩
      rw [hnil] at hin
      cases hin
    simp only [build_user_summary, h]
    rw [if_neg hne', if_neg (not_not_intro rfl), if_pos hf]
  · intro h hne hall
    have hfe : entries.filter (fun item => pyStrip item.agent ≠ "System") = [] := by
      rw [List.filter_eq_nil_iff]
      intro a ha
      simp [hall a ha]
    have hmaps : (entries.filterMap fun item =>
        if pyStrip item.agent = "System" then some (pyStrip item.response) else none) =
        entries.map (fun e => pyStrip e.response) := by
      rw [show entries.map (fun e => pyStrip e.response) =
            entries.filterMap (some ∘ fun e => pyStrip e.response)
          from (List.filterMap_eq_map _ ▸ rfl)]
      exact List.filterMap_congr (fun a ha => by simp [hall a ha])
    simp only [build_user_summary, h]
    rw [if_neg hne, if_neg (not_not_intro rfl), hfe,
        if_neg (not_not_intro rfl), hmaps]
    cases hx : (entries.map (fun e => pyStrip e.response)).find? (fun m => m ≠ "") <;> rfl

/-- Witness for C9 (amended): concrete inputs exercising all four precedence
branches — a stripped non-empty base text, the empty-empty case, a
non-System entry, and a System-only entry with a non-blank response. -/
theorem C9_summary_precedence_amended_witness :
    build_user_summary " hi " [{ agent := "System" }] = pyStrip " hi " ∧
      build_user_summary "" [] = "" ∧
      build_user_summary "" [{ agent := "Product Specialist" }] =
        "I checked with our specialists and shared their responses below." ∧
      build_user_summary "" [{ agent := "System", response := "note" }] =
        ((([{ agent := "System", response := "note" }] : List Entry).map
          (fun e => pyStrip e.response)).find? (fun m => m ≠ "")).getD
          "I reviewed your request and prepared an update." :=
  ⟨(C9_summary_precedence_amended " hi " [{ agent := "System" }]).1 (by decide),
   (C9_summary_precedence_amended "" []).2.1 rfl rfl,
   (C9_summary_precedence_amended "" [{ agent := "Product Specialist" }]).2.2.1 rfl (by decide),
   (C9_summary_precedence_amended "" [{ agent := "System", response := "note" }]).2.2.2 rfl
     (by decide) (by decide)⟩

/-- C10: whenever the stripped input is non-empty, `strip_retail_metadata`
returns a non-empty string; in particular, when the cleaning pipeline leaves
nothing, the function falls back to the stripped original input. -/
theorem C10_strip_retail_metadata_nonempty (s : String) (h : pyStrip s ≠ "") :
    strip_retail_metadata s ≠ "" ∧
      (strip_retail_metadata_core s = "" → strip_retail_metadata s = pyStrip s) := by
  have hs : s ≠ "" := by
    intro he
    subst he
    exact h rfl
  unfold strip_retail_metadata
  rw [if_neg hs]
  by_cases hc : strip_retail_metadata_core s = ""
  · constructor
    · simpa [hc] using h
    · intro _
      simp [hc]
  · constructor
    · simp [hc]
    · intro hc2
      exact absurd hc2 hc

/-- Witness for C10: a metadata-only input whose cleaning pipeline leaves
nothing falls back to the stripped original, which is non-empty. -/
theorem C10_strip_retail_metadata_nonempty_witness :
    strip_retail_metadata "STATE: x" ≠ "" ∧
      (strip_retail_metadata_core "STATE: x" = "" →
        strip_retail_metadata "STATE: x" = pyStrip "STATE: x") :=
  C10_strip_retail_metadata_nonempty "STATE: x" (by decide)

end RetailOrch
